import Mathlib

/-!
# Karabiner-Elements: HID value observer facade and IOKit HID manager

A shallow embedding of

* `src/lib/libkrbn/src/libkrbn_hid_value_observer.cpp`
  (`libkrbn_hid_value_observer_class` and the three exported C functions), and
* `pqrs/osx/iokit_hid_manager.hpp` (`pqrs::osx::iokit_hid_manager`),

followed by theorems about them.

Conventions of the embedding:

* a C pointer that owns its pointee is an `Option`: `none` is `nullptr`;
* `std::unordered_set<iokit_registry_entry_id>` is a `Finset`;
* `std::unordered_map<iokit_registry_entry_id, V>` is an association list
  (`unordered_map V`) with the operations `find`, `assign` (`m[k] = v`),
  `erase` and `clear`;
* `enqueue_to_dispatcher(f)` appends a `task` to the FIFO queue of the
  dispatcher client; `dispatch` runs the task at the head of the queue;
* calls of an external function pointer and signal emissions are recorded
  in traces (lists), oldest first.
-/

namespace Karabiner

/-! ## Basic types -/

/-- Registry entry ids: `pqrs::osx::iokit_registry_entry_id` (a strong typedef of `uint64_t`). -/
abbrev iokit_registry_entry_id := Nat

/-- Values of `CFDictionaryRef`: matching dictionaries are only passed around, never inspected. -/
abbrev CFDictionaryRef := Nat

/-- Values of `IOHIDDeviceRef`: device handles are only stored and forwarded. -/
abbrev IOHIDDeviceRef := Nat

/-- Values of `iokit_return` (a `kern_return_t`). -/
abbrev iokit_return := Int

/-! ## `std::unordered_map` keyed by registry entry id -/

/-- Association-list model of `std::unordered_map<iokit_registry_entry_id, V>`. -/
abbrev unordered_map (V : Type) := List (iokit_registry_entry_id × V)

namespace unordered_map

variable {V : Type}

/-- Lookup, `m.find(k)`: `none` stands for `std::end(m)`. -/
def find (m : unordered_map V) (k : iokit_registry_entry_id) : Option V :=
  match m with
  | [] => none
  | (k', v) :: rest => if k' = k then some v else find rest k

/-- Assignment, `m[k] = v`: overwrite the entry of `k` if there is one, else add one. -/
def assign (m : unordered_map V) (k : iokit_registry_entry_id) (v : V) : unordered_map V :=
  match m with
  | [] => [(k, v)]
  | (k', v') :: rest => if k' = k then (k, v) :: rest else (k', v') :: assign rest k v

/-- Removal, `m.erase(k)`. -/
def erase (m : unordered_map V) (k : iokit_registry_entry_id) : unordered_map V :=
  match m with
  | [] => []
  | (k', v') :: rest => if k' = k then erase rest k else (k', v') :: erase rest k

/-- Emptying, `m.clear()`. -/
def clear (_m : unordered_map V) : unordered_map V := []

end unordered_map

/-! ## `pqrs::osx::iokit_hid_manager` -/

/-- The signals of `iokit_hid_manager` (lines 23-25 of the header). -/
inductive signal where
  | device_matched (registry_entry_id : iokit_registry_entry_id) (device_ptr : IOHIDDeviceRef)
  | device_terminated (registry_entry_id : iokit_registry_entry_id)
  | error_occurred (message : String) (r : iokit_return)
  deriving DecidableEq, Repr

/-- The closures that `iokit_hid_manager` hands to `enqueue_to_dispatcher`:
`start()` (line 43) and the three signal emissions (lines 104, 118, 125). -/
inductive task where
  | start
  | emit (s : signal)
  deriving DecidableEq, Repr

/-- A `pqrs::osx::iokit_service_monitor` as far as the manager sees it: the matching
dictionary it was constructed with and whether `async_start()` was called on it. -/
structure iokit_service_monitor where
  matching_dictionary : CFDictionaryRef
  async_start_called : Bool
  deriving DecidableEq, Repr

/-- The call `monitor->async_start()` (line 130). -/
def iokit_service_monitor.async_start (m : iokit_service_monitor) : iokit_service_monitor :=
  { m with async_start_called := true }

/-- State of a `pqrs::osx::iokit_hid_manager`: its three data members (lines 143-146),
the closures it has enqueued to the dispatcher and not yet run, and the signals it has
emitted so far. -/
structure iokit_hid_manager where
  matching_dictionaries_ : List (Option CFDictionaryRef)
  service_monitors_ : List iokit_service_monitor
  devices_ : unordered_map IOHIDDeviceRef
  dispatcher_queue : List task
  emitted : List signal
  deriving DecidableEq, Repr

namespace iokit_hid_manager

/-- The constructor (lines 31-34): only the matching dictionaries are stored. -/
def new (matching_dictionaries : List (Option CFDictionaryRef)) : iokit_hid_manager :=
  { matching_dictionaries_ := matching_dictionaries
    service_monitors_ := []
    devices_ := []
    dispatcher_queue := []
    emitted := [] }

/-- The call `enqueue_to_dispatcher(f)` of `dispatcher_client`. -/
def enqueue_to_dispatcher (m : iokit_hid_manager) (t : task) : iokit_hid_manager :=
  { m with dispatcher_queue := m.dispatcher_queue ++ [t] }

/-- The method `async_start` (lines 42-46). -/
def async_start (m : iokit_hid_manager) : iokit_hid_manager :=
  m.enqueue_to_dispatcher task.start

/-- One round of the loop body of `start` (lines 94-133) for one matching dictionary:
a null dictionary is skipped, otherwise a monitor is made, started and pushed back. -/
def start_one (monitors : List iokit_service_monitor) (matching_dictionary : Option CFDictionaryRef) :
    List iokit_service_monitor :=
  match matching_dictionary with
  | some d => monitors ++ [(iokit_service_monitor.mk d false).async_start]
  | none => monitors

/-- The method `start` (lines 92-135): the loop over `matching_dictionaries_`. -/
def start (m : iokit_hid_manager) : iokit_hid_manager :=
  { m with service_monitors_ := m.matching_dictionaries_.foldl start_one m.service_monitors_ }

/-- The handler connected to `monitor->service_matched` (lines 98-111).
`created` is what `IOHIDDeviceCreate` returns for the service (`none` is a null result). -/
def service_matched (m : iokit_hid_manager) (registry_entry_id : iokit_registry_entry_id)
    (created : Option IOHIDDeviceRef) : iokit_hid_manager :=
  match m.devices_.find registry_entry_id with
  | none =>
    match created with
    | some device_ptr =>
      ({ m with devices_ := m.devices_.assign registry_entry_id device_ptr }).enqueue_to_dispatcher
        (task.emit (signal.device_matched registry_entry_id device_ptr))
    | none => m
  | some _ => m

/-- The handler connected to `monitor->service_terminated` (lines 113-122). -/
def service_terminated (m : iokit_hid_manager) (registry_entry_id : iokit_registry_entry_id) :
    iokit_hid_manager :=
  match m.devices_.find registry_entry_id with
  | some _ =>
    ({ m with devices_ := m.devices_.erase registry_entry_id }).enqueue_to_dispatcher
      (task.emit (signal.device_terminated registry_entry_id))
  | none => m

/-- The handler connected to `monitor->error_occurred` (lines 124-128). -/
def monitor_error_occurred (m : iokit_hid_manager) (message : String) (r : iokit_return) :
    iokit_hid_manager :=
  m.enqueue_to_dispatcher (task.emit (signal.error_occurred message r))

/-- The method `stop` (lines 138-141). -/
def stop (m : iokit_hid_manager) : iokit_hid_manager :=
  { m with service_monitors_ := [], devices_ := m.devices_.clear }

/-- Modelled from the spec: the dispatcher (`pqrs::dispatcher`, not part of the sources) runs
the enqueued closures one at a time in enqueue order. `dispatch` runs the closure at the head
of the queue: `start()` is called, or the signal is emitted. -/
def dispatch (m : iokit_hid_manager) : iokit_hid_manager :=
  match m.dispatcher_queue with
  | [] => m
  | task.start :: rest => start { m with dispatcher_queue := rest }
  | task.emit s :: rest => { m with dispatcher_queue := rest, emitted := m.emitted ++ [s] }

end iokit_hid_manager

/-- The inputs that drive a manager after its construction: the public call `async_start()`,
the three notifications of its service monitors, and the dispatcher running the next
enqueued closure. -/
inductive notification where
  | async_start
  | service_matched (registry_entry_id : iokit_registry_entry_id) (created : Option IOHIDDeviceRef)
  | service_terminated (registry_entry_id : iokit_registry_entry_id)
  | error_occurred (message : String) (r : iokit_return)
  | dispatch
  deriving DecidableEq, Repr

namespace iokit_hid_manager

/-- The reaction of the manager to one input. -/
def step (m : iokit_hid_manager) (n : notification) : iokit_hid_manager :=
  match n with
  | notification.async_start => m.async_start
  | notification.service_matched id created => m.service_matched id created
  | notification.service_terminated id => m.service_terminated id
  | notification.error_occurred message r => m.monitor_error_occurred message r
  | notification.dispatch => m.dispatch

/-- The reaction of the manager to a finite sequence of inputs, oldest first. -/
def run (m : iokit_hid_manager) (ns : List notification) : iokit_hid_manager :=
  ns.foldl step m

/-- The signal emissions waiting in a dispatcher queue, in queue order. -/
def pending (q : List task) : List signal :=
  match q with
  | [] => []
  | task.start :: rest => pending rest
  | task.emit s :: rest => s :: pending rest

/-- Every signal the manager has produced so far, oldest first: those already emitted,
then those enqueued and waiting for the dispatcher. -/
def signals (m : iokit_hid_manager) : List signal :=
  m.emitted ++ pending m.dispatcher_queue

end iokit_hid_manager

/-- Number of `device_matched` signals for `id` in a list of signals. -/
def count_device_matched (id : iokit_registry_entry_id) (ss : List signal) : Nat :=
  match ss with
  | [] => 0
  | signal.device_matched id' _ :: rest =>
    (if id' = id then 1 else 0) + count_device_matched id rest
  | _ :: rest => count_device_matched id rest

/-- Number of `device_terminated` signals for `id` in a list of signals. -/
def count_device_terminated (id : iokit_registry_entry_id) (ss : List signal) : Nat :=
  match ss with
  | [] => 0
  | signal.device_terminated id' :: rest =>
    (if id' = id then 1 else 0) + count_device_terminated id rest
  | _ :: rest => count_device_terminated id rest

/-- An input is a `service_matched` notification for `id`. -/
def notification.is_service_matched (id : iokit_registry_entry_id) (n : notification) : Bool :=
  match n with
  | notification.service_matched id' _ => decide (id' = id)
  | _ => false

/-- An input is a `service_terminated` notification for `id`. -/
def notification.is_service_terminated (id : iokit_registry_entry_id) (n : notification) : Bool :=
  match n with
  | notification.service_terminated id' => decide (id' = id)
  | _ => false

/-- No `service_matched` for `id` comes later in the sequence than a `service_terminated`
for `id`: the registry entry id is not reported again once it has been reported gone. -/
def not_rematched (id : iokit_registry_entry_id) (ns : List notification) : Prop :=
  ns.Pairwise (fun a b => ¬ (a.is_service_terminated id = true ∧ b.is_service_matched id = true))

instance (id : iokit_registry_entry_id) (ns : List notification) :
    Decidable (not_rematched id ns) :=
  inferInstanceAs (Decidable (ns.Pairwise
    (fun (a b : notification) =>
      ¬ (a.is_service_terminated id = true ∧ b.is_service_matched id = true))))

/-! ## The facade `libkrbn_hid_value_observer_class` -/

/-- The enumeration `krbn::event_type`. -/
inductive event_type where
  | key_down
  | key_up
  | single
  deriving DecidableEq, Repr

/-- The enumeration `krbn::event_queue::event::type`, with the enumerators the `switch`
of `values_arrived` lists (lines 99-131). -/
inductive event.type where
  | none
  | key_code
  | consumer_key_code
  | pointing_button
  | pointing_motion
  | shell_command
  | select_input_source
  | set_variable
  | mouse_key
  | stop_keyboard_repeat
  | device_keys_and_pointing_buttons_are_released
  | device_ungrabbed
  | caps_lock_state_changed
  | pointing_device_event_from_event_tap
  | frontmost_application_changed
  | input_source_changed
  | keyboard_type_changed
  deriving DecidableEq, Repr

/-- A `krbn::event_queue::event` as `values_arrived` reads it: the results of `get_type()`,
`get_key_code()` and `get_consumer_key_code()` (the optionals are `none` when empty).
The class itself is not part of the sources, so the three results are independent fields. -/
structure event where
  get_type : event.type
  get_key_code : Option Nat
  get_consumer_key_code : Option Nat
  deriving DecidableEq, Repr

/-- An entry of a `krbn::event_queue::queue`: the results of `get_event_type()` and `get_event()`. -/
structure entry where
  get_event_type : event_type
  get_event : event
  deriving DecidableEq, Repr

/-- The enumeration `libkrbn_hid_value_type` of the C interface. -/
inductive libkrbn_hid_value_type where
  | key_code
  | consumer_key_code
  deriving DecidableEq, Repr

/-- The enumeration `libkrbn_hid_value_event_type` of the C interface. -/
inductive libkrbn_hid_value_event_type where
  | key_down
  | key_up
  | single
  deriving DecidableEq, Repr

/-- One call of a `libkrbn_hid_value_observer_callback`: the function pointer that is called
and its four arguments. -/
structure callback_call where
  callback : Nat
  type : libkrbn_hid_value_type
  value : Nat
  event_type : libkrbn_hid_value_event_type
  refcon : Nat
  deriving DecidableEq, Repr

/-- The conversion `static_cast<uint32_t>(code)`. -/
def to_uint32 (code : Nat) : Nat := code % 2 ^ 32

/-- A `krbn::human_interface_device`, constructed from `(*device_ptr, registry_entry_id)`
(line 25). -/
structure human_interface_device where
  device : IOHIDDeviceRef
  registry_entry_id_ : iokit_registry_entry_id
  deriving DecidableEq, Repr

/-- Modelled from the spec: `human_interface_device::get_registry_entry_id()` (the class is not
part of the sources) exposes the Registry Entry Id of the device wrapper. -/
def human_interface_device.get_registry_entry_id (hid : human_interface_device) :
    iokit_registry_entry_id :=
  hid.registry_entry_id_

/-- A `krbn::hid_observer`, constructed from the device wrapper (line 33); the flag records the
call `async_observe()` (line 48). -/
structure hid_observer where
  hid : human_interface_device
  async_observe_called : Bool
  deriving DecidableEq, Repr

/-- The call `hid_observer->async_observe()` (line 48). -/
def hid_observer.async_observe (h : hid_observer) : hid_observer :=
  { h with async_observe_called := true }

/-- State of a `libkrbn_hid_value_observer_class`: its data members (lines 137-144). -/
structure libkrbn_hid_value_observer_class where
  callback_ : Nat
  refcon_ : Nat
  hid_manager_ : Option iokit_hid_manager
  hids_ : unordered_map human_interface_device
  hid_observers_ : unordered_map hid_observer
  observed_devices_ : Finset iokit_registry_entry_id
  deriving DecidableEq

namespace libkrbn_hid_value_observer_class

/-- The constructor (lines 12-67). `matching_dictionary` is what `make_matching_dictionary`
returned for the generic desktop keyboard usage (null when the system call failed). The
handlers it connects are the functions `device_matched`, `device_observed`,
`device_unobserved`, `device_terminated` and `error_occurred` below. -/
def new (callback refcon : Nat) (matching_dictionary : Option CFDictionaryRef) :
    libkrbn_hid_value_observer_class :=
  { callback_ := callback
    refcon_ := refcon
    hid_manager_ := some (iokit_hid_manager.new [matching_dictionary]).async_start
    hids_ := []
    hid_observers_ := []
    observed_devices_ := ∅ }

/-- The handler connected to `hid_manager_->device_matched` (lines 24-49). -/
def device_matched (o : libkrbn_hid_value_observer_class)
    (registry_entry_id : iokit_registry_entry_id) (device_ptr : IOHIDDeviceRef) :
    libkrbn_hid_value_observer_class :=
  let hid := human_interface_device.mk device_ptr registry_entry_id
  let observer := (hid_observer.mk hid false).async_observe
  { o with
    hids_ := o.hids_.assign registry_entry_id hid
    hid_observers_ := o.hid_observers_.assign hid.get_registry_entry_id observer }

/-- The handler connected to `hid_observer->device_observed` (lines 36-40). -/
def device_observed (o : libkrbn_hid_value_observer_class)
    (registry_entry_id : iokit_registry_entry_id) : libkrbn_hid_value_observer_class :=
  { o with observed_devices_ := insert registry_entry_id o.observed_devices_ }

/-- The handler connected to `hid_observer->device_unobserved` (lines 42-46). -/
def device_unobserved (o : libkrbn_hid_value_observer_class)
    (registry_entry_id : iokit_registry_entry_id) : libkrbn_hid_value_observer_class :=
  { o with observed_devices_ := o.observed_devices_.erase registry_entry_id }

/-- The handler connected to `hid_manager_->device_terminated` (lines 51-60). -/
def device_terminated (o : libkrbn_hid_value_observer_class)
    (registry_entry_id : iokit_registry_entry_id) : libkrbn_hid_value_observer_class :=
  { o with
    hid_observers_ := o.hid_observers_.erase registry_entry_id
    hids_ := o.hids_.erase registry_entry_id
    observed_devices_ := o.observed_devices_.erase registry_entry_id }

/-- The handler connected to `hid_manager_->error_occurred` (lines 62-64): it writes a log
line and touches no member. -/
def error_occurred (o : libkrbn_hid_value_observer_class) (_message : String)
    (_iokit_return : iokit_return) : libkrbn_hid_value_observer_class :=
  o

/-- The method `calculate_observed_device_count` (lines 76-80): the returned `size_t` and the
object after the call. -/
def calculate_observed_device_count (o : libkrbn_hid_value_observer_class) :
    Nat × libkrbn_hid_value_observer_class :=
  (o.observed_devices_.card, o)

/-- The first `switch` of the loop body of `values_arrived` (lines 85-96). -/
def convert_event_type (t : event_type) : libkrbn_hid_value_event_type :=
  match t with
  | event_type.key_down => libkrbn_hid_value_event_type.key_down
  | event_type.key_up => libkrbn_hid_value_event_type.key_up
  | event_type.single => libkrbn_hid_value_event_type.single

/-- The loop body of `values_arrived` (lines 85-133): `calls` are the callback calls made
so far, the result those made after the entry has been handled. -/
def values_arrived_entry (o : libkrbn_hid_value_observer_class) (calls : List callback_call)
    (entry : entry) : List callback_call :=
  let event_type := convert_event_type entry.get_event_type
  match entry.get_event.get_type with
  | event.type.key_code =>
    match entry.get_event.get_key_code with
    | some key_code =>
      calls ++ [⟨o.callback_, libkrbn_hid_value_type.key_code, to_uint32 key_code, event_type,
        o.refcon_⟩]
    | none => calls
  | event.type.consumer_key_code =>
    match entry.get_event.get_consumer_key_code with
    | some consumer_key_code =>
      calls ++ [⟨o.callback_, libkrbn_hid_value_type.consumer_key_code,
        to_uint32 consumer_key_code, event_type, o.refcon_⟩]
    | none => calls
  | _ => calls

/-- The method `values_arrived` (lines 83-135): the callback calls it makes, oldest first. -/
def values_arrived (o : libkrbn_hid_value_observer_class) (event_queue : List entry) :
    List callback_call :=
  event_queue.foldl o.values_arrived_entry []

end libkrbn_hid_value_observer_class

/-- The handlers of the facade that signals can fire after its construction. -/
inductive callback where
  | device_matched (registry_entry_id : iokit_registry_entry_id) (device_ptr : IOHIDDeviceRef)
  | device_observed (registry_entry_id : iokit_registry_entry_id)
  | device_unobserved (registry_entry_id : iokit_registry_entry_id)
  | device_terminated (registry_entry_id : iokit_registry_entry_id)
  | error_occurred (message : String) (r : iokit_return)
  | values_arrived (event_queue : List entry)
  deriving DecidableEq, Repr

namespace libkrbn_hid_value_observer_class

/-- The members of the facade after one of its handlers has run. The callback calls that
`values_arrived` makes are not members: they are given by `values_arrived`. -/
def fire (o : libkrbn_hid_value_observer_class) (c : callback) :
    libkrbn_hid_value_observer_class :=
  match c with
  | callback.device_matched id device_ptr => o.device_matched id device_ptr
  | callback.device_observed id => o.device_observed id
  | callback.device_unobserved id => o.device_unobserved id
  | callback.device_terminated id => o.device_terminated id
  | callback.error_occurred message r => o.error_occurred message r
  | callback.values_arrived _ => o

/-- The members of the facade after a finite sequence of handler runs, oldest first. -/
def run (o : libkrbn_hid_value_observer_class) (cs : List callback) :
    libkrbn_hid_value_observer_class :=
  cs.foldl fire o

end libkrbn_hid_value_observer_class

/-- The event type of the C interface that has the same name as the internal one. -/
def same_named_event_type (t : event_type) : libkrbn_hid_value_event_type :=
  match t with
  | event_type.key_down => libkrbn_hid_value_event_type.key_down
  | event_type.key_up => libkrbn_hid_value_event_type.key_up
  | event_type.single => libkrbn_hid_value_event_type.single

/-- The callback call that the interface description assigns to one queued entry: a call for
an entry of kind key code or consumer key code that carries its code, with the matching
value type, the code as `uint32`, the same-named event type and the context pointer; no call
for any other entry. -/
def expected_call (callback refcon : Nat) (e : entry) : Option callback_call :=
  if e.get_event.get_type = event.type.key_code then
    e.get_event.get_key_code.map (fun code =>
      ⟨callback, libkrbn_hid_value_type.key_code, code % 2 ^ 32,
        same_named_event_type e.get_event_type, refcon⟩)
  else if e.get_event.get_type = event.type.consumer_key_code then
    e.get_event.get_consumer_key_code.map (fun code =>
      ⟨callback, libkrbn_hid_value_type.consumer_key_code, code % 2 ^ 32,
        same_named_event_type e.get_event_type, refcon⟩)
  else none

/-- The sequence of callback calls that the interface description assigns to an event queue:
the calls of its entries, in queue order. -/
def expected_calls (callback refcon : Nat) (event_queue : List entry) : List callback_call :=
  event_queue.filterMap (expected_call callback refcon)

/-! ## The exported C functions -/

/-- The memory the exported functions work on: the variables of type
`libkrbn_hid_value_observer*` of the caller by address (`none` is a null handle, `some o` a
handle to the object `o`), the objects made by `new` and the objects passed to `delete`,
oldest first. -/
structure memory where
  slots : Nat → Option libkrbn_hid_value_observer_class
  constructed : List libkrbn_hid_value_observer_class
  destroyed : List libkrbn_hid_value_observer_class

/-- The function `libkrbn_hid_value_observer_initialize` (lines 149-156). `out` is the
address of the slot, or `none` for a null pointer; `matching_dictionary` is the dictionary the
constructor obtains from the system. -/
def libkrbn_hid_value_observer_initialize (out : Option Nat) (callback refcon : Nat)
    (matching_dictionary : Option CFDictionaryRef) (mem : memory) : Bool × memory :=
  match out with
  | none => (false, mem)
  | some a =>
    match mem.slots a with
    | some _ => (false, mem)
    | none =>
      let o := libkrbn_hid_value_observer_class.new callback refcon matching_dictionary
      (true, { mem with slots := Function.update mem.slots a (some o)
                        constructed := mem.constructed ++ [o] })

/-- The function `libkrbn_hid_value_observer_terminate` (lines 158-163). -/
def libkrbn_hid_value_observer_terminate (p : Option Nat) (mem : memory) : memory :=
  match p with
  | none => mem
  | some a =>
    match mem.slots a with
    | some o =>
      { mem with slots := Function.update mem.slots a none
                 destroyed := mem.destroyed ++ [o] }
    | none => mem

/-- The function `libkrbn_hid_value_observer_calculate_observed_device_count`
(lines 165-172): the returned `size_t` and the pointee after the call. -/
def libkrbn_hid_value_observer_calculate_observed_device_count
    (p : Option libkrbn_hid_value_observer_class) :
    Nat × Option libkrbn_hid_value_observer_class :=
  match p with
  | some o => ((o.calculate_observed_device_count).1, some (o.calculate_observed_device_count).2)
  | none => (0, none)

/-! ## Theorems -/

/-- C1. `libkrbn_hid_value_observer_initialize` returns false exactly when `out` is null or
the slot it points to already holds a non-null handle, and then the memory is unchanged (the
slot keeps its value and nothing is constructed). For a non-null `out` with an empty slot it
returns true, the slot then holds a non-null handle (to the one object that was constructed),
and no other slot is changed. -/
theorem initialize_contract (out : Option Nat) (callback refcon : Nat)
    (matching_dictionary : Option CFDictionaryRef) (mem : memory) :
    ((( libkrbn_hid_value_observer_initialize out callback refcon matching_dictionary mem).1 = false
        ↔ (out = none ∨ ∃ a, out = some a ∧ mem.slots a ≠ none))
      ∧ (( libkrbn_hid_value_observer_initialize out callback refcon matching_dictionary mem).1 = false
        → ( libkrbn_hid_value_observer_initialize out callback refcon matching_dictionary mem).2 = mem)
      ∧ (∀ a, out = some a → mem.slots a = none →
          ( libkrbn_hid_value_observer_initialize out callback refcon matching_dictionary mem).1 = true
          ∧ (( libkrbn_hid_value_observer_initialize out callback refcon matching_dictionary mem).2.slots a
              = some (libkrbn_hid_value_observer_class.new callback refcon matching_dictionary))
          ∧ (( libkrbn_hid_value_observer_initialize out callback refcon matching_dictionary mem).2.slots a
              ≠ none)
          ∧ (( libkrbn_hid_value_observer_initialize out callback refcon matching_dictionary mem).2.constructed
              = mem.constructed
                ++ [libkrbn_hid_value_observer_class.new callback refcon matching_dictionary])
          ∧ (∀ b, b ≠ a →
              ( libkrbn_hid_value_observer_initialize out callback refcon matching_dictionary mem).2.slots b
                = mem.slots b))) := by
  refine ⟨?_, ?_, ?_⟩
  · cases out with
    | none => simp [ libkrbn_hid_value_observer_initialize]
    | some a =>
      cases h : mem.slots a <;> simp [ libkrbn_hid_value_observer_initialize, h]
  · cases out with
    | none => simp [ libkrbn_hid_value_observer_initialize]
    | some a =>
      cases h : mem.slots a <;> simp [ libkrbn_hid_value_observer_initialize, h]
  · intro a ha hs
    subst ha
    simp only [ libkrbn_hid_value_observer_initialize, hs]
    refine ⟨trivial, ?_, ?_, trivial, ?_⟩
    · simp
    · simp
    · intro b hb
      simp [Function.update, hb]

/-- C1, instance: an initialize into the empty slot 0 succeeds and returns true, and a null
`out` is refused. -/
theorem initialize_contract_witness :
    (( libkrbn_hid_value_observer_initialize (some 0) 11 22 (some 3)
          ⟨fun _ => none, [], []⟩).1 = true
      ∧ ( libkrbn_hid_value_observer_initialize (some 0) 11 22 (some 3)
          ⟨fun _ => none, [], []⟩).2.slots 0 ≠ none)
    ∧ ( libkrbn_hid_value_observer_initialize none 11 22 (some 3) ⟨fun _ => none, [], []⟩).1
        = false :=
  ⟨⟨((initialize_contract (some 0) 11 22 (some 3) ⟨fun _ => none, [], []⟩).2.2 0 rfl rfl).1,
      ((initialize_contract (some 0) 11 22 (some 3) ⟨fun _ => none, [], []⟩).2.2 0 rfl rfl).2.2.1⟩,
    (initialize_contract none 11 22 (some 3) ⟨fun _ => none, [], []⟩).1.mpr (Or.inl rfl)⟩

/-- C2. `libkrbn_hid_value_observer_terminate` is idempotent and null-safe: a second call
changes nothing, the two calls together pass at most one object to `delete` (the one the slot
held, if any), a call on a null pointer or on an empty slot changes nothing, a call on an
initialized slot deletes its object and touches no other slot, after a call on a non-null
pointer the slot is null, and an initialize into that slot then succeeds. -/
theorem terminate_idempotent (p : Option Nat) (mem : memory) :
    libkrbn_hid_value_observer_terminate p (libkrbn_hid_value_observer_terminate p mem)
        = libkrbn_hid_value_observer_terminate p mem
      ∧ (∃ ds : List libkrbn_hid_value_observer_class, ds.length ≤ 1
          ∧ (libkrbn_hid_value_observer_terminate p
              (libkrbn_hid_value_observer_terminate p mem)).destroyed = mem.destroyed ++ ds)
      ∧ (p = none → libkrbn_hid_value_observer_terminate p mem = mem)
      ∧ (∀ a, p = some a → mem.slots a = none → libkrbn_hid_value_observer_terminate p mem = mem)
      ∧ (∀ a o, p = some a → mem.slots a = some o →
          (libkrbn_hid_value_observer_terminate p mem).destroyed = mem.destroyed ++ [o]
          ∧ (libkrbn_hid_value_observer_terminate p mem).constructed = mem.constructed
          ∧ ∀ b, b ≠ a → (libkrbn_hid_value_observer_terminate p mem).slots b = mem.slots b)
      ∧ (∀ a, p = some a → (libkrbn_hid_value_observer_terminate p mem).slots a = none)
      ∧ (∀ a callback refcon matching_dictionary, p = some a →
          ( libkrbn_hid_value_observer_initialize (some a) callback refcon matching_dictionary
            (libkrbn_hid_value_observer_terminate p mem)).1 = true) := by
  cases p with
  | none =>
    refine ⟨rfl, ⟨[], by simp, by simp [libkrbn_hid_value_observer_terminate]⟩, ?_, ?_, ?_, ?_, ?_⟩
      <;> simp [libkrbn_hid_value_observer_terminate]
  | some a =>
    cases h : mem.slots a with
    | none =>
      refine ⟨?_, ⟨[], by simp, ?_⟩, ?_, ?_, ?_, ?_, ?_⟩
      · simp [libkrbn_hid_value_observer_terminate, h]
      · simp [libkrbn_hid_value_observer_terminate, h]
      · simp
      · intro b hb _
        cases hb
        simp [libkrbn_hid_value_observer_terminate, h]
      · intro b o hb hs
        cases hb
        rw [h] at hs
        cases hs
      · intro b hb
        cases hb
        simp [libkrbn_hid_value_observer_terminate, h]
      · intro b callback refcon matching_dictionary hb
        cases hb
        simp [ libkrbn_hid_value_observer_initialize, libkrbn_hid_value_observer_terminate, h]
    | some o =>
      refine ⟨?_, ⟨[o], by simp, ?_⟩, ?_, ?_, ?_, ?_, ?_⟩
      · simp [libkrbn_hid_value_observer_terminate, h]
      · simp [libkrbn_hid_value_observer_terminate, h]
      · simp
      · intro b hb hs
        cases hb
        rw [h] at hs
        cases hs
      · intro b o' hb hs
        cases hb
        rw [h] at hs
        cases hs
        refine ⟨?_, ?_, ?_⟩
        · simp [libkrbn_hid_value_observer_terminate, h]
        · simp [libkrbn_hid_value_observer_terminate, h]
        · intro c hc
          simp [libkrbn_hid_value_observer_terminate, h, Function.update, hc]
      · intro b hb
        cases hb
        simp [libkrbn_hid_value_observer_terminate, h]
      · intro b callback refcon matching_dictionary hb
        cases hb
        simp [ libkrbn_hid_value_observer_initialize, libkrbn_hid_value_observer_terminate, h]

/-- C2, instance: terminating the initialized slot 0 deletes its object once, leaves the slot
null, and the second terminate changes nothing. -/
theorem terminate_idempotent_witness :
    (libkrbn_hid_value_observer_terminate (some 0)
        ⟨fun _ => some (libkrbn_hid_value_observer_class.new 11 22 (some 3)), [], []⟩).destroyed
      = [] ++ [libkrbn_hid_value_observer_class.new 11 22 (some 3)]
    ∧ (libkrbn_hid_value_observer_terminate (some 0)
        ⟨fun _ => some (libkrbn_hid_value_observer_class.new 11 22 (some 3)), [], []⟩).slots 0
      = none
    ∧ libkrbn_hid_value_observer_terminate (some 0)
        (libkrbn_hid_value_observer_terminate (some 0)
          ⟨fun _ => some (libkrbn_hid_value_observer_class.new 11 22 (some 3)), [], []⟩)
      = libkrbn_hid_value_observer_terminate (some 0)
          ⟨fun _ => some (libkrbn_hid_value_observer_class.new 11 22 (some 3)), [], []⟩ :=
  ⟨((terminate_idempotent (some 0)
        ⟨fun _ => some (libkrbn_hid_value_observer_class.new 11 22 (some 3)), [], []⟩).2.2.2.2.1
      0 (libkrbn_hid_value_observer_class.new 11 22 (some 3)) rfl rfl).1,
    (terminate_idempotent (some 0)
        ⟨fun _ => some (libkrbn_hid_value_observer_class.new 11 22 (some 3)), [], []⟩).2.2.2.2.2.1
      0 rfl,
    (terminate_idempotent (some 0)
        ⟨fun _ => some (libkrbn_hid_value_observer_class.new 11 22 (some 3)), [], []⟩).1⟩

/-- C3. `libkrbn_hid_value_observer_calculate_observed_device_count` returns 0 for a null
handle; for a handle to an object it returns the number of (distinct) registry entry ids in
`observed_devices_` and leaves the object, hence the set, as it was. -/
theorem calculate_observed_device_count_spec :
    (libkrbn_hid_value_observer_calculate_observed_device_count none).1 = 0
      ∧ ∀ o : libkrbn_hid_value_observer_class,
          (libkrbn_hid_value_observer_calculate_observed_device_count (some o)).1
              = o.observed_devices_.card
          ∧ (libkrbn_hid_value_observer_calculate_observed_device_count (some o)).1
              = (o.observed_devices_.toList.dedup).length
          ∧ (libkrbn_hid_value_observer_calculate_observed_device_count (some o)).2 = some o
          ∧ (o.calculate_observed_device_count).2.observed_devices_ = o.observed_devices_ := by
  refine ⟨rfl, fun o => ⟨rfl, ?_, rfl, rfl⟩⟩
  simp [libkrbn_hid_value_observer_calculate_observed_device_count,
    libkrbn_hid_value_observer_class.calculate_observed_device_count,
    List.Nodup.dedup (Finset.nodup_toList _)]

/-- C3, instance: after device 1 was observed twice and device 2 observed and unobserved,
the count is 1. -/
theorem calculate_observed_device_count_spec_witness :
    (libkrbn_hid_value_observer_calculate_observed_device_count
        (some ((libkrbn_hid_value_observer_class.new 11 22 (some 3)).run
          [Karabiner.callback.device_observed 1, Karabiner.callback.device_observed 1,
            Karabiner.callback.device_observed 2, Karabiner.callback.device_unobserved 2]))).1
      = 1 :=
  ((calculate_observed_device_count_spec.2
      ((libkrbn_hid_value_observer_class.new 11 22 (some 3)).run
        [Karabiner.callback.device_observed 1, Karabiner.callback.device_observed 1,
          Karabiner.callback.device_observed 2, Karabiner.callback.device_unobserved 2])).1).trans
    (by decide)

/-- The first `switch` of `values_arrived` maps every event type to the one of the same name. -/
theorem convert_event_type_eq (t : event_type) :
    libkrbn_hid_value_observer_class.convert_event_type t = same_named_event_type t := by
  cases t <;> rfl

/-- One round of the loop of `values_arrived` appends the expected call of the entry, if any. -/
theorem values_arrived_entry_eq (o : libkrbn_hid_value_observer_class)
    (calls : List callback_call) (e : entry) :
    o.values_arrived_entry calls e
      = calls ++ (expected_call o.callback_ o.refcon_ e).toList := by
  obtain ⟨t, ⟨k, kc, ckc⟩⟩ := e
  cases k <;> cases kc <;> cases ckc <;>
    simp [libkrbn_hid_value_observer_class.values_arrived_entry, expected_call,
      convert_event_type_eq, to_uint32]

/-- The loop of `values_arrived`, started with any calls already made. -/
theorem values_arrived_foldl (o : libkrbn_hid_value_observer_class)
    (event_queue : List entry) (calls : List callback_call) :
    event_queue.foldl o.values_arrived_entry calls
      = calls ++ expected_calls o.callback_ o.refcon_ event_queue := by
  induction event_queue generalizing calls with
  | nil => simp [expected_calls]
  | cons e rest ih =>
    rw [List.foldl_cons, ih, values_arrived_entry_eq]
    cases h : expected_call o.callback_ o.refcon_ e <;>
      simp [expected_calls, List.filterMap_cons, h]

/-- No handler of the facade changes the callback pointer or the context pointer. -/
theorem fire_callback_refcon (o : libkrbn_hid_value_observer_class) (c : callback) :
    (o.fire c).callback_ = o.callback_ ∧ (o.fire c).refcon_ = o.refcon_ := by
  cases c <;> exact ⟨rfl, rfl⟩

/-- No sequence of handler runs changes the callback pointer or the context pointer. -/
theorem run_callback_refcon (cs : List callback) (o : libkrbn_hid_value_observer_class) :
    (o.run cs).callback_ = o.callback_ ∧ (o.run cs).refcon_ = o.refcon_ := by
  induction cs generalizing o with
  | nil => exact ⟨rfl, rfl⟩
  | cons c rest ih =>
    have h := ih (o.fire c)
    have h2 := fire_callback_refcon o c
    exact ⟨h.1.trans h2.1, h.2.trans h2.2⟩

/-- C4. For every event queue the callback calls made by `values_arrived` are, in queue
order, exactly the calls of the entries of kind key code or consumer key code that carry
their code: the matching value type, the code as `uint32`, the same-named event type, and
the callback and context pointers given at construction (whatever handlers have run since);
entries of any other kind cause no call. -/
theorem values_arrived_calls (callback refcon : Nat)
    (matching_dictionary : Option CFDictionaryRef) (cs : List Karabiner.callback)
    (event_queue : List entry) :
    (((libkrbn_hid_value_observer_class.new callback refcon matching_dictionary).run cs).values_arrived
        event_queue
      = expected_calls callback refcon event_queue)
    ∧ (∀ o : libkrbn_hid_value_observer_class,
        o.values_arrived event_queue = expected_calls o.callback_ o.refcon_ event_queue)
    ∧ (∀ o : libkrbn_hid_value_observer_class, ∀ e : entry,
        e.get_event.get_type ≠ event.type.key_code →
        e.get_event.get_type ≠ event.type.consumer_key_code →
        o.values_arrived (event_queue ++ [e]) = o.values_arrived event_queue) := by
  have key : ∀ o : libkrbn_hid_value_observer_class, ∀ q : List entry,
      o.values_arrived q = expected_calls o.callback_ o.refcon_ q := by
    intro o q
    simp [libkrbn_hid_value_observer_class.values_arrived, values_arrived_foldl]
  refine ⟨?_, fun o => key o event_queue, ?_⟩
  · rw [key]
    have h := run_callback_refcon cs
      (libkrbn_hid_value_observer_class.new callback refcon matching_dictionary)
    rw [h.1, h.2]
    rfl
  · intro o e h1 h2
    rw [key, key]
    simp [expected_calls, List.filterMap_append, expected_call, h1, h2]

/-- C4, instance: a queue with a key code, a pointing button and a consumer key code whose
code exceeds 32 bits yields two calls, in queue order. -/
theorem values_arrived_calls_witness :
    ((libkrbn_hid_value_observer_class.new 11 22 (some 3)).run
        [Karabiner.callback.device_matched 1 7]).values_arrived
      [⟨event_type.key_down, ⟨event.type.key_code, some 4, none⟩⟩,
        ⟨event_type.key_up, ⟨event.type.pointing_button, none, none⟩⟩,
        ⟨event_type.single, ⟨event.type.consumer_key_code, none, some (2 ^ 32 + 5)⟩⟩]
      = [⟨11, libkrbn_hid_value_type.key_code, 4, libkrbn_hid_value_event_type.key_down, 22⟩,
          ⟨11, libkrbn_hid_value_type.consumer_key_code, 5,
            libkrbn_hid_value_event_type.single, 22⟩] :=
  (values_arrived_calls 11 22 (some 3) [Karabiner.callback.device_matched 1 7]
    [⟨event_type.key_down, ⟨event.type.key_code, some 4, none⟩⟩,
      ⟨event_type.key_up, ⟨event.type.pointing_button, none, none⟩⟩,
      ⟨event_type.single, ⟨event.type.consumer_key_code, none, some (2 ^ 32 + 5)⟩⟩]).1.trans
    (by decide)

/-! ### Facts about `unordered_map` -/

/-- After `m[k] = v` the entry of `k` is `v`. -/
theorem find_assign_self {V : Type} (m : unordered_map V) (k : iokit_registry_entry_id) (v : V) :
    (m.assign k v).find k = some v := by
  induction m with
  | nil => simp [unordered_map.assign, unordered_map.find]
  | cons e rest ih =>
    obtain ⟨k', v'⟩ := e
    by_cases h : k' = k
    · simp [unordered_map.assign, unordered_map.find, h]
    · simp [unordered_map.assign, unordered_map.find, h, ih]

/-- The assignment `m[k] = v` leaves the entry of every other key as it was. -/
theorem find_assign_ne {V : Type} (m : unordered_map V) (k k' : iokit_registry_entry_id) (v : V)
    (hk : k' ≠ k) : (m.assign k v).find k' = m.find k' := by
  induction m with
  | nil =>
    have hk2 : ¬ k = k' := fun h => hk h.symm
    simp [unordered_map.assign, unordered_map.find, hk2]
  | cons e rest ih =>
    obtain ⟨k0, v0⟩ := e
    by_cases h : k0 = k
    · subst h
      have hk2 : ¬ k0 = k' := fun h => hk h.symm
      simp [unordered_map.assign, unordered_map.find, hk2]
    · by_cases h2 : k0 = k'
      · subst h2
        simp [unordered_map.assign, unordered_map.find, h]
      · simp [unordered_map.assign, unordered_map.find, h, h2, ih]

/-- After `m.erase(k)` there is no entry of `k`. -/
theorem find_erase_self {V : Type} (m : unordered_map V) (k : iokit_registry_entry_id) :
    (m.erase k).find k = none := by
  induction m with
  | nil => simp [unordered_map.erase, unordered_map.find]
  | cons e rest ih =>
    obtain ⟨k', v'⟩ := e
    by_cases h : k' = k
    · simp [unordered_map.erase, h, ih]
    · simp [unordered_map.erase, unordered_map.find, h, ih]

/-- The removal `m.erase(k)` leaves the entry of every other key as it was. -/
theorem find_erase_ne {V : Type} (m : unordered_map V) (k k' : iokit_registry_entry_id)
    (hk : k' ≠ k) : (m.erase k).find k' = m.find k' := by
  induction m with
  | nil => simp [unordered_map.erase, unordered_map.find]
  | cons e rest ih =>
    obtain ⟨k0, v0⟩ := e
    by_cases h : k0 = k
    · subst h
      have hk2 : ¬ k0 = k' := fun h => hk h.symm
      simp [unordered_map.erase, unordered_map.find, hk2, ih]
    · by_cases h2 : k0 = k'
      · subst h2
        simp [unordered_map.erase, unordered_map.find, h]
      · simp [unordered_map.erase, unordered_map.find, h, h2, ih]

/-! ### Facts about the signals of the manager -/

/-- Enqueueing a signal emission adds the signal at the end of the pending signals. -/
theorem pending_append_emit (q : List task) (s : signal) :
    iokit_hid_manager.pending (q ++ [task.emit s]) = iokit_hid_manager.pending q ++ [s] := by
  induction q with
  | nil => rfl
  | cons t rest ih =>
    cases t with
    | start => simpa [iokit_hid_manager.pending] using ih
    | emit s' => simp [iokit_hid_manager.pending, ih]

/-- Enqueueing `start()` adds no pending signal. -/
theorem pending_append_start (q : List task) :
    iokit_hid_manager.pending (q ++ [task.start]) = iokit_hid_manager.pending q := by
  induction q with
  | nil => rfl
  | cons t rest ih =>
    cases t with
    | start => simpa [iokit_hid_manager.pending] using ih
    | emit s' => simp [iokit_hid_manager.pending, ih]

/-- Counting `device_matched` signals distributes over concatenation. -/
theorem count_device_matched_append (id : iokit_registry_entry_id) (xs ys : List signal) :
    count_device_matched id (xs ++ ys)
      = count_device_matched id xs + count_device_matched id ys := by
  induction xs with
  | nil => simp [count_device_matched]
  | cons x rest ih =>
    cases x <;> simp [count_device_matched, ih, Nat.add_assoc]

/-- Counting `device_terminated` signals distributes over concatenation. -/
theorem count_device_terminated_append (id : iokit_registry_entry_id) (xs ys : List signal) :
    count_device_terminated id (xs ++ ys)
      = count_device_terminated id xs + count_device_terminated id ys := by
  induction xs with
  | nil => simp [count_device_terminated]
  | cons x rest ih =>
    cases x <;> simp [count_device_terminated, ih, Nat.add_assoc]

/-- C5. A `service_matched` for an id that is in `devices_` changes nothing: no signal is
enqueued and the table is as before. A `service_matched` for an absent id whose device handle
is created stores the handle under the id, leaves the other entries alone and enqueues exactly
one `device_matched(id, handle)`. Hence when the device is reported a second time (by another
matching filter), the second report changes nothing and exactly one `device_matched` has been
produced for the id. -/
theorem service_matched_spec (m : iokit_hid_manager) (id : iokit_registry_entry_id) :
    (∀ v created, m.devices_.find id = some v → m.service_matched id created = m)
    ∧ (∀ h, m.devices_.find id = none →
        (m.service_matched id (some h)).devices_.find id = some h
        ∧ (∀ k, k ≠ id → (m.service_matched id (some h)).devices_.find k = m.devices_.find k)
        ∧ (m.service_matched id (some h)).dispatcher_queue
            = m.dispatcher_queue ++ [task.emit (signal.device_matched id h)]
        ∧ (m.service_matched id (some h)).emitted = m.emitted
        ∧ (m.service_matched id (some h)).service_monitors_ = m.service_monitors_
        ∧ (m.service_matched id (some h)).signals = m.signals ++ [signal.device_matched id h])
    ∧ (∀ h created, m.devices_.find id = none →
        (m.service_matched id (some h)).service_matched id created
            = m.service_matched id (some h)
        ∧ ((m.service_matched id (some h)).service_matched id created).signals
            = m.signals ++ [signal.device_matched id h]
        ∧ count_device_matched id
            ((m.service_matched id (some h)).service_matched id created).signals
            = count_device_matched id m.signals + 1) := by
  have step1 : ∀ h, m.devices_.find id = none →
      (m.service_matched id (some h)).devices_.find id = some h
      ∧ (m.service_matched id (some h)).signals = m.signals ++ [signal.device_matched id h] := by
    intro h hf
    constructor
    · simp [iokit_hid_manager.service_matched, hf, iokit_hid_manager.enqueue_to_dispatcher,
        find_assign_self]
    · simp [iokit_hid_manager.service_matched, hf, iokit_hid_manager.enqueue_to_dispatcher,
        iokit_hid_manager.signals, pending_append_emit]
  have present : ∀ (m' : iokit_hid_manager) v created, m'.devices_.find id = some v →
      m'.service_matched id created = m' := by
    intro m' v created hf
    simp [iokit_hid_manager.service_matched, hf]
  refine ⟨present m, ?_, ?_⟩
  · intro h hf
    refine ⟨(step1 h hf).1, ?_, ?_, ?_, ?_, (step1 h hf).2⟩
    · intro k hk
      simp [iokit_hid_manager.service_matched, hf, iokit_hid_manager.enqueue_to_dispatcher,
        find_assign_ne _ _ _ _ hk]
    · simp [iokit_hid_manager.service_matched, hf, iokit_hid_manager.enqueue_to_dispatcher]
    · simp [iokit_hid_manager.service_matched, hf, iokit_hid_manager.enqueue_to_dispatcher]
    · simp [iokit_hid_manager.service_matched, hf, iokit_hid_manager.enqueue_to_dispatcher]
  · intro h created hf
    have h2 := present (m.service_matched id (some h)) h created (step1 h hf).1
    rw [h2]
    refine ⟨rfl, (step1 h hf).2, ?_⟩
    rw [(step1 h hf).2, count_device_matched_append]
    simp [count_device_matched]

/-- C5, instance: two filters report device 5 to a manager with an empty table; one
`device_matched` is produced. -/
theorem service_matched_spec_witness :
    (((iokit_hid_manager.new [some 0, some 1]).service_matched 5 (some 9)).service_matched 5
        (some 9)).signals
      = [] ++ [signal.device_matched 5 9] :=
  ((service_matched_spec (iokit_hid_manager.new [some 0, some 1]) 5).2.2 9 (some 9) rfl).2.1

/-- C6. A `service_terminated` for an id that is in `devices_` removes that entry, leaves
every other entry as it was and enqueues exactly one `device_terminated(id)`; a
`service_terminated` for an id that is not in the table changes nothing (no signal, same
table), so a second report of the same removal is silent. -/
theorem service_terminated_spec (m : iokit_hid_manager) (id : iokit_registry_entry_id) :
    (∀ v, m.devices_.find id = some v →
        (m.service_terminated id).devices_.find id = none
        ∧ (∀ k, k ≠ id → (m.service_terminated id).devices_.find k = m.devices_.find k)
        ∧ (m.service_terminated id).dispatcher_queue
            = m.dispatcher_queue ++ [task.emit (signal.device_terminated id)]
        ∧ (m.service_terminated id).emitted = m.emitted
        ∧ (m.service_terminated id).service_monitors_ = m.service_monitors_
        ∧ (m.service_terminated id).signals = m.signals ++ [signal.device_terminated id]
        ∧ (m.service_terminated id).service_terminated id = m.service_terminated id)
    ∧ (m.devices_.find id = none → m.service_terminated id = m) := by
  constructor
  · intro v hf
    have gone : (m.service_terminated id).devices_.find id = none := by
      simp [iokit_hid_manager.service_terminated, hf, iokit_hid_manager.enqueue_to_dispatcher,
        find_erase_self]
    refine ⟨gone, ?_, ?_, ?_, ?_, ?_, ?_⟩
    · intro k hk
      simp [iokit_hid_manager.service_terminated, hf, iokit_hid_manager.enqueue_to_dispatcher,
        find_erase_ne _ _ _ hk]
    · simp [iokit_hid_manager.service_terminated, hf, iokit_hid_manager.enqueue_to_dispatcher]
    · simp [iokit_hid_manager.service_terminated, hf, iokit_hid_manager.enqueue_to_dispatcher]
    · simp [iokit_hid_manager.service_terminated, hf, iokit_hid_manager.enqueue_to_dispatcher]
    · simp [iokit_hid_manager.service_terminated, hf, iokit_hid_manager.enqueue_to_dispatcher,
        iokit_hid_manager.signals, pending_append_emit]
    · generalize m.service_terminated id = m' at gone ⊢
      simp [iokit_hid_manager.service_terminated, gone]
  · intro hf
    simp [iokit_hid_manager.service_terminated, hf]

/-- C6, instance: the removal of the live device 5 erases its entry and enqueues one
`device_terminated`; a removal report for the unknown device 6 changes nothing. -/
theorem service_terminated_spec_witness :
    (((iokit_hid_manager.new [some 0]).service_matched 5 (some 9)).service_terminated
        5).devices_.find 5 = none
    ∧ (((iokit_hid_manager.new [some 0]).service_matched 5 (some 9)).service_terminated
        5).dispatcher_queue
      = ((iokit_hid_manager.new [some 0]).service_matched 5 (some 9)).dispatcher_queue
          ++ [task.emit (signal.device_terminated 5)]
    ∧ ((iokit_hid_manager.new [some 0]).service_matched 5 (some 9)).service_terminated 6
      = (iokit_hid_manager.new [some 0]).service_matched 5 (some 9) :=
  ⟨((service_terminated_spec ((iokit_hid_manager.new [some 0]).service_matched 5 (some 9)) 5).1
      9 rfl).1,
    ((service_terminated_spec ((iokit_hid_manager.new [some 0]).service_matched 5 (some 9)) 5).1
      9 rfl).2.2.1,
    (service_terminated_spec ((iokit_hid_manager.new [some 0]).service_matched 5 (some 9)) 6).2
      rfl⟩

/-- Running the closure at the head of the queue does not change the produced signals. -/
theorem signals_dispatch (m : iokit_hid_manager) : m.dispatch.signals = m.signals := by
  cases hq : m.dispatcher_queue with
  | nil => simp [iokit_hid_manager.dispatch, hq]
  | cons t rest =>
    cases t with
    | start =>
      simp [iokit_hid_manager.dispatch, hq, iokit_hid_manager.signals, iokit_hid_manager.start,
        iokit_hid_manager.pending]
    | emit s =>
      simp [iokit_hid_manager.dispatch, hq, iokit_hid_manager.signals,
        iokit_hid_manager.pending]

/-- Running the closure at the head of the queue does not change the live-device table. -/
theorem devices_dispatch (m : iokit_hid_manager) : m.dispatch.devices_ = m.devices_ := by
  cases hq : m.dispatcher_queue with
  | nil => simp [iokit_hid_manager.dispatch, hq]
  | cons t rest =>
    cases t with
    | start => simp [iokit_hid_manager.dispatch, hq, iokit_hid_manager.start]
    | emit s => simp [iokit_hid_manager.dispatch, hq]

/-- What one input does to the signals of one id and to its table entry: nothing, or a first
report of the id adds one `device_matched` and the entry, or a removal report of a live id adds
one `device_terminated` and removes the entry. -/
theorem step_effect (id : iokit_registry_entry_id) (m : iokit_hid_manager) (n : notification) :
    (count_device_matched id (m.step n).signals = count_device_matched id m.signals
      ∧ count_device_terminated id (m.step n).signals = count_device_terminated id m.signals
      ∧ (m.step n).devices_.find id = m.devices_.find id)
    ∨ (n.is_service_matched id = true ∧ m.devices_.find id = none
      ∧ (m.step n).devices_.find id ≠ none
      ∧ count_device_matched id (m.step n).signals = count_device_matched id m.signals + 1
      ∧ count_device_terminated id (m.step n).signals = count_device_terminated id m.signals)
    ∨ (n.is_service_terminated id = true ∧ m.devices_.find id ≠ none
      ∧ (m.step n).devices_.find id = none
      ∧ count_device_matched id (m.step n).signals = count_device_matched id m.signals
      ∧ count_device_terminated id (m.step n).signals
          = count_device_terminated id m.signals + 1) := by
  cases n with
  | async_start =>
    left
    simp [iokit_hid_manager.step, iokit_hid_manager.async_start,
      iokit_hid_manager.enqueue_to_dispatcher, iokit_hid_manager.signals, pending_append_start]
  | dispatch =>
    left
    simp [iokit_hid_manager.step, signals_dispatch, devices_dispatch]
  | error_occurred message r =>
    left
    simp [iokit_hid_manager.step, iokit_hid_manager.monitor_error_occurred,
      iokit_hid_manager.enqueue_to_dispatcher, iokit_hid_manager.signals, pending_append_emit,
      count_device_matched_append, count_device_terminated_append, count_device_matched,
      count_device_terminated]
  | service_matched id' created =>
    cases hf : m.devices_.find id' with
    | some v =>
      left
      simp [iokit_hid_manager.step, iokit_hid_manager.service_matched, hf]
    | none =>
      cases created with
      | none =>
        left
        simp [iokit_hid_manager.step, iokit_hid_manager.service_matched, hf]
      | some h =>
        by_cases hid : id' = id
        · subst hid
          right
          left
          simp [iokit_hid_manager.step, iokit_hid_manager.service_matched, hf,
            iokit_hid_manager.enqueue_to_dispatcher, iokit_hid_manager.signals,
            pending_append_emit, count_device_matched_append, count_device_terminated_append,
            count_device_matched, count_device_terminated, find_assign_self,
            notification.is_service_matched]
          omega
        · left
          have hid2 : id ≠ id' := fun e => hid e.symm
          simp [iokit_hid_manager.step, iokit_hid_manager.service_matched, hf,
            iokit_hid_manager.enqueue_to_dispatcher, iokit_hid_manager.signals,
            pending_append_emit, count_device_matched_append, count_device_terminated_append,
            count_device_matched, count_device_terminated, find_assign_ne _ _ _ _ hid2, hid]
  | service_terminated id' =>
    cases hf : m.devices_.find id' with
    | none =>
      left
      simp [iokit_hid_manager.step, iokit_hid_manager.service_terminated, hf]
    | some v =>
      by_cases hid : id' = id
      · subst hid
        right
        right
        simp [iokit_hid_manager.step, iokit_hid_manager.service_terminated, hf,
          iokit_hid_manager.enqueue_to_dispatcher, iokit_hid_manager.signals,
          pending_append_emit, count_device_matched_append, count_device_terminated_append,
          count_device_matched, count_device_terminated, find_erase_self,
          notification.is_service_terminated]
        omega
      · left
        have hid2 : id ≠ id' := fun e => hid e.symm
        simp [iokit_hid_manager.step, iokit_hid_manager.service_terminated, hf,
          iokit_hid_manager.enqueue_to_dispatcher, iokit_hid_manager.signals,
          pending_append_emit, count_device_matched_append, count_device_terminated_append,
          count_device_matched, count_device_terminated, find_erase_ne _ _ _ hid2, hid]

/-- Running a sequence of inputs is running the first, then the rest. -/
theorem run_cons (m : iokit_hid_manager) (n : notification) (rest : List notification) :
    m.run (n :: rest) = (m.step n).run rest := rfl

/-- While an id is absent from the table and is not reported as matched, its signals do not
change. -/
theorem run_absent_quiet (id : iokit_registry_entry_id) (ns : List notification) :
    ∀ m : iokit_hid_manager, m.devices_.find id = none →
      (∀ n ∈ ns, n.is_service_matched id = false) →
      count_device_matched id (m.run ns).signals = count_device_matched id m.signals
      ∧ count_device_terminated id (m.run ns).signals
          = count_device_terminated id m.signals := by
  induction ns with
  | nil => intro m _ _; exact ⟨rfl, rfl⟩
  | cons n rest ih =>
    intro m hm hns
    have hn : n.is_service_matched id = false := hns n (List.mem_cons_self _ _)
    have hrest : ∀ x ∈ rest, x.is_service_matched id = false :=
      fun x hx => hns x (List.mem_cons_of_mem _ hx)
    rw [run_cons]
    rcases step_effect id m n with ⟨h1, h2, h3⟩ | ⟨h1, _⟩ | ⟨_, h2, _⟩
    · have := ih (m.step n) (h3.trans hm) hrest
      exact ⟨this.1.trans h1, this.2.trans h2⟩
    · rw [hn] at h1
      cases h1
    · exact absurd hm h2

/-- The signals of each id stay balanced with the table: the id has as many `device_matched`
as `device_terminated` signals while it is absent from the table, and one more while it is
present. -/
theorem run_balance (id : iokit_registry_entry_id) (ns : List notification) :
    ∀ m : iokit_hid_manager,
      ((m.devices_.find id = none →
          count_device_matched id m.signals = count_device_terminated id m.signals)
        ∧ (m.devices_.find id ≠ none →
          count_device_matched id m.signals = count_device_terminated id m.signals + 1)) →
      ((m.run ns).devices_.find id = none →
          count_device_matched id (m.run ns).signals
            = count_device_terminated id (m.run ns).signals)
        ∧ ((m.run ns).devices_.find id ≠ none →
          count_device_matched id (m.run ns).signals
            = count_device_terminated id (m.run ns).signals + 1) := by
  induction ns with
  | nil => intro m h; exact h
  | cons n rest ih =>
    intro m h
    rw [run_cons]
    apply ih
    rcases step_effect id m n with ⟨h1, h2, h3⟩ | ⟨_, h2, h3, h4, h5⟩ | ⟨_, h2, h3, h4, h5⟩
    · rw [h1, h2, h3]
      exact h
    · refine ⟨fun e => absurd e h3, fun _ => ?_⟩
      rw [h4, h5, h.1 h2]
    · refine ⟨fun _ => ?_, fun e => absurd h3 e⟩
      rw [h4, h5, h.2 h2]

/-- When an id is not reported as matched again after it has been reported as terminated, a
sequence of inputs adds at most one `device_terminated` and at most one `device_matched` for
it, and no `device_matched` at all if the id is in the table at the start. -/
theorem run_bounded (id : iokit_registry_entry_id) (ns : List notification) :
    ∀ m : iokit_hid_manager, not_rematched id ns →
      count_device_terminated id (m.run ns).signals ≤ count_device_terminated id m.signals + 1
      ∧ count_device_matched id (m.run ns).signals ≤ count_device_matched id m.signals + 1
      ∧ (m.devices_.find id ≠ none →
          count_device_matched id (m.run ns).signals ≤ count_device_matched id m.signals) := by
  induction ns with
  | nil =>
    intro m _
    exact ⟨Nat.le_succ _, Nat.le_succ _, fun _ => Nat.le_refl _⟩
  | cons n rest ih =>
    intro m hns
    have hpair := List.pairwise_cons.mp hns
    rw [run_cons]
    rcases step_effect id m n with ⟨h1, h2, h3⟩ | ⟨_, h2, h3, h4, h5⟩ | ⟨h1, h2, h3, h4, h5⟩
    · have := ih (m.step n) hpair.2
      rw [h1, h2, h3] at this
      exact this
    · have := ih (m.step n) hpair.2
      rw [h4, h5] at this
      refine ⟨this.1, this.2.2 h3, fun e => absurd h2 e⟩
    · have hquiet : ∀ x ∈ rest, x.is_service_matched id = false := by
        intro x hx
        have := hpair.1 x hx
        cases hx2 : x.is_service_matched id with
        | false => rfl
        | true => exact absurd ⟨h1, hx2⟩ this
      have := run_absent_quiet id rest (m.step n) h3 hquiet
      rw [h4, h5] at this
      refine ⟨Nat.le_of_eq this.2, ?_, fun _ => Nat.le_of_eq this.1⟩
      rw [this.1]
      exact Nat.le_succ _

/-- C7, counterexample. The sequence matched, terminated, matched, terminated for id 1 (after
`async_start()` has run) yields two `device_matched` and two `device_terminated` signals for
id 1. -/
theorem device_signals_rematched :
    ¬ (count_device_matched 1
          ((iokit_hid_manager.new [some 0]).run
            [notification.async_start, notification.dispatch,
              notification.service_matched 1 (some 7), notification.service_terminated 1,
              notification.service_matched 1 (some 7), notification.service_terminated 1]).signals
        ≤ 1)
    ∧ ¬ (count_device_terminated 1
          ((iokit_hid_manager.new [some 0]).run
            [notification.async_start, notification.dispatch,
              notification.service_matched 1 (some 7), notification.service_terminated 1,
              notification.service_matched 1 (some 7), notification.service_terminated 1]).signals
        ≤ 1) := by
  decide

/-- C7, amended. For every finite sequence of inputs to a newly constructed manager in which
no `service_matched` for an id comes after a `service_terminated` for that id, the id produces
at most one `device_matched` and at most one `device_terminated` signal. -/
theorem device_signals_at_most_once (matching_dictionaries : List (Option CFDictionaryRef))
    (ns : List notification) (id : iokit_registry_entry_id) (h : not_rematched id ns) :
    count_device_matched id ((iokit_hid_manager.new matching_dictionaries).run ns).signals ≤ 1
    ∧ count_device_terminated id ((iokit_hid_manager.new matching_dictionaries).run ns).signals
        ≤ 1 := by
  have hb := run_bounded id ns (iokit_hid_manager.new matching_dictionaries) h
  have h0 : (iokit_hid_manager.new matching_dictionaries).signals = [] := rfl
  rw [h0] at hb
  exact ⟨hb.2.1, hb.1⟩

/-- C7, witness: two filters report device 1, then both report its removal. -/
theorem device_signals_at_most_once_witness :
    not_rematched 1
        [notification.async_start, notification.dispatch,
          notification.service_matched 1 (some 7), notification.service_matched 1 (some 7),
          notification.dispatch, notification.service_terminated 1,
          notification.service_terminated 1]
    ∧ (count_device_matched 1
          ((iokit_hid_manager.new [some 0, some 1]).run
            [notification.async_start, notification.dispatch,
              notification.service_matched 1 (some 7), notification.service_matched 1 (some 7),
              notification.dispatch, notification.service_terminated 1,
              notification.service_terminated 1]).signals ≤ 1
      ∧ count_device_terminated 1
          ((iokit_hid_manager.new [some 0, some 1]).run
            [notification.async_start, notification.dispatch,
              notification.service_matched 1 (some 7), notification.service_matched 1 (some 7),
              notification.dispatch, notification.service_terminated 1,
              notification.service_terminated 1]).signals ≤ 1) :=
  ⟨by decide, device_signals_at_most_once [some 0, some 1] _ 1 (by decide)⟩

/-! ### The Observed-Device Set of the facade -/

/-- Membership in `observed_devices_` after one handler has run. -/
theorem mem_observed_fire (id : iokit_registry_entry_id) (o : libkrbn_hid_value_observer_class)
    (c : callback) :
    id ∈ (o.fire c).observed_devices_
      ↔ c = callback.device_observed id
        ∨ (id ∈ o.observed_devices_ ∧ c ≠ callback.device_unobserved id
            ∧ c ≠ callback.device_terminated id) := by
  cases c with
  | device_matched i d =>
    simp [libkrbn_hid_value_observer_class.fire, libkrbn_hid_value_observer_class.device_matched]
  | device_observed i =>
    simp only [libkrbn_hid_value_observer_class.fire,
      libkrbn_hid_value_observer_class.device_observed, Finset.mem_insert]
    constructor
    · rintro (h | h)
      · left; rw [h]
      · right; exact ⟨h, by simp, by simp⟩
    · rintro (h | h)
      · left; injection h with h; exact h.symm
      · right; exact h.1
  | device_unobserved i =>
    simp only [libkrbn_hid_value_observer_class.fire,
      libkrbn_hid_value_observer_class.device_unobserved, Finset.mem_erase]
    constructor
    · rintro ⟨h1, h2⟩
      right
      refine ⟨h2, ?_, by simp⟩
      intro e
      injection e with e
      exact h1 e.symm
    · rintro (h | ⟨h1, h2, _⟩)
      · cases h
      · refine ⟨?_, h1⟩
        intro e
        apply h2
        rw [e]
  | device_terminated i =>
    simp only [libkrbn_hid_value_observer_class.fire,
      libkrbn_hid_value_observer_class.device_terminated, Finset.mem_erase]
    constructor
    · rintro ⟨h1, h2⟩
      right
      refine ⟨h2, by simp, ?_⟩
      intro e
      injection e with e
      exact h1 e.symm
    · rintro (h | ⟨h1, _, h3⟩)
      · cases h
      · refine ⟨?_, h1⟩
        intro e
        apply h3
        rw [e]
  | error_occurred message r =>
    simp [libkrbn_hid_value_observer_class.fire, libkrbn_hid_value_observer_class.error_occurred]
  | values_arrived q =>
    simp [libkrbn_hid_value_observer_class.fire]

/-- Running a sequence of handlers and then one more. -/
theorem run_concat (o : libkrbn_hid_value_observer_class) (cs : List callback) (c : callback) :
    o.run (cs ++ [c]) = (o.run cs).fire c := by
  simp [libkrbn_hid_value_observer_class.run, List.foldl_append]

/-- Running two sequences of handlers one after the other. -/
theorem run_append (o : libkrbn_hid_value_observer_class) (cs ds : List callback) :
    o.run (cs ++ ds) = (o.run cs).run ds := by
  simp [libkrbn_hid_value_observer_class.run, List.foldl_append]

/-- Splitting a list with one more element at the end around an occurrence of `x` whose
followers all satisfy `Q`: the occurrence is the new element, or it is in the old list and
the new element satisfies `Q`. -/
theorem split_concat {α : Type} (x c : α) (init : List α) (Q : α → Prop) :
    (∃ pre post, init ++ [c] = pre ++ x :: post ∧ ∀ y ∈ post, Q y)
      ↔ c = x ∨ ((∃ pre post, init = pre ++ x :: post ∧ ∀ y ∈ post, Q y) ∧ Q c) := by
  constructor
  · rintro ⟨pre, post, heq, hQ⟩
    rcases List.eq_nil_or_concat post with hp | ⟨post', y, hp⟩
    · subst hp
      have := List.append_inj' heq rfl
      left
      injection this.2 with h
    · rw [List.concat_eq_append] at hp
      subst hp
      have heq2 : init ++ [c] = (pre ++ x :: post') ++ [y] := by
        rw [heq]; simp
      have := List.append_inj' heq2 rfl
      right
      refine ⟨⟨pre, post', this.1, fun z hz => hQ z (List.mem_append_left _ hz)⟩, ?_⟩
      injection this.2 with h
      rw [h]
      exact hQ y (List.mem_append_right _ (List.mem_singleton_self y))
  · rintro (h | ⟨⟨pre, post, heq, hQ⟩, hc⟩)
    · exact ⟨init, [], by rw [h], by simp⟩
    · refine ⟨pre, post ++ [c], by rw [heq]; simp, ?_⟩
      intro y hy
      rcases List.mem_append.mp hy with h | h
      · exact hQ y h
      · rw [List.mem_singleton.mp h]
        exact hc

/-- An id that is not in `observed_devices_` stays out as long as no `device_observed`
handler runs for it. -/
theorem not_mem_observed_run (id : iokit_registry_entry_id) (cs : List callback) :
    ∀ o : libkrbn_hid_value_observer_class, id ∉ o.observed_devices_ →
      (∀ c ∈ cs, c ≠ callback.device_observed id) →
      id ∉ (o.run cs).observed_devices_ := by
  induction cs with
  | nil => intro o h _; exact h
  | cons c rest ih =>
    intro o h hcs
    apply ih (o.fire c)
    · rw [mem_observed_fire]
      rintro (e | ⟨e, _⟩)
      · exact hcs c (List.mem_cons_self _ _) e
      · exact h e
    · intro x hx
      exact hcs x (List.mem_cons_of_mem _ hx)

/-- C8, counterexample. Device 1 is matched, observed and terminated, then matched and observed
again: the sequence contains `device_terminated` for id 1, and id 1 is in `observed_devices_`
at its end. -/
theorem observed_again_after_terminated :
    Karabiner.callback.device_terminated 1
        ∈ [Karabiner.callback.device_matched 1 7, Karabiner.callback.device_observed 1,
            Karabiner.callback.device_terminated 1, Karabiner.callback.device_matched 1 7,
            Karabiner.callback.device_observed 1]
    ∧ 1 ∈ ((libkrbn_hid_value_observer_class.new 11 22 (some 3)).run
        [Karabiner.callback.device_matched 1 7, Karabiner.callback.device_observed 1,
          Karabiner.callback.device_terminated 1, Karabiner.callback.device_matched 1 7,
          Karabiner.callback.device_observed 1]).observed_devices_ := by
  decide

/-- C8, amended. In the facade only the `device_observed`, `device_unobserved` and
`device_terminated` handlers change `observed_devices_`; after any sequence of handler runs on
a newly constructed facade an id is in the set if and only if a `device_observed` for it has
run and no `device_unobserved` or `device_terminated` for it has run since; in particular the
id is not in the set after its `device_terminated` as long as no later `device_observed` for
it runs. -/
theorem observed_devices_characterisation (callback refcon : Nat)
    (matching_dictionary : Option CFDictionaryRef) (cs : List Karabiner.callback)
    (id : iokit_registry_entry_id) :
    (∀ (o : libkrbn_hid_value_observer_class) (c : Karabiner.callback),
        (∀ i, c ≠ Karabiner.callback.device_observed i) →
        (∀ i, c ≠ Karabiner.callback.device_unobserved i) →
        (∀ i, c ≠ Karabiner.callback.device_terminated i) →
        (o.fire c).observed_devices_ = o.observed_devices_)
    ∧ (id ∈ ((libkrbn_hid_value_observer_class.new callback refcon matching_dictionary).run
          cs).observed_devices_
        ↔ ∃ pre post, cs = pre ++ Karabiner.callback.device_observed id :: post
            ∧ ∀ c ∈ post, c ≠ Karabiner.callback.device_unobserved id
                ∧ c ≠ Karabiner.callback.device_terminated id)
    ∧ (∀ pre post, cs = pre ++ Karabiner.callback.device_terminated id :: post →
        (∀ c ∈ post, c ≠ Karabiner.callback.device_observed id) →
        id ∉ ((libkrbn_hid_value_observer_class.new callback refcon matching_dictionary).run
          cs).observed_devices_) := by
  refine ⟨?_, ?_, ?_⟩
  · intro o c h1 h2 h3
    cases c with
    | device_matched i d => rfl
    | device_observed i => exact absurd rfl (h1 i)
    | device_unobserved i => exact absurd rfl (h2 i)
    | device_terminated i => exact absurd rfl (h3 i)
    | error_occurred message r => rfl
    | values_arrived q => rfl
  · induction cs using List.reverseRecOn with
    | nil =>
      simp [libkrbn_hid_value_observer_class.run, libkrbn_hid_value_observer_class.new]
    | append_singleton init c ih =>
      rw [run_concat, mem_observed_fire, ih]
      exact (split_concat (Karabiner.callback.device_observed id) c init
        (fun y => y ≠ Karabiner.callback.device_unobserved id
          ∧ y ≠ Karabiner.callback.device_terminated id)).symm
  · intro pre post hcs hpost
    rw [hcs, run_append]
    have gone : id ∉ (((libkrbn_hid_value_observer_class.new callback refcon
        matching_dictionary).run pre).fire
          (Karabiner.callback.device_terminated id)).observed_devices_ := by
      rw [mem_observed_fire]
      simp
    exact not_mem_observed_run id post _ gone hpost

/-- C8, instance: device 1 is matched, observed and terminated, then device 2 is matched and
observed; afterwards 2 is in the set and 1, terminated and not observed since, is not. -/
theorem observed_devices_characterisation_witness :
    2 ∈ ((libkrbn_hid_value_observer_class.new 11 22 (some 3)).run
        [Karabiner.callback.device_matched 1 7, Karabiner.callback.device_observed 1,
          Karabiner.callback.device_terminated 1, Karabiner.callback.device_matched 2 8,
          Karabiner.callback.device_observed 2]).observed_devices_
    ∧ 1 ∉ ((libkrbn_hid_value_observer_class.new 11 22 (some 3)).run
        [Karabiner.callback.device_matched 1 7, Karabiner.callback.device_observed 1,
          Karabiner.callback.device_terminated 1, Karabiner.callback.device_matched 2 8,
          Karabiner.callback.device_observed 2]).observed_devices_ :=
  ⟨(observed_devices_characterisation 11 22 (some 3) _ 2).2.1.mpr
      ⟨[Karabiner.callback.device_matched 1 7, Karabiner.callback.device_observed 1,
          Karabiner.callback.device_terminated 1, Karabiner.callback.device_matched 2 8],
        [], rfl, by decide⟩,
    (observed_devices_characterisation 11 22 (some 3) _ 1).2.2
      [Karabiner.callback.device_matched 1 7, Karabiner.callback.device_observed 1]
      [Karabiner.callback.device_matched 2 8, Karabiner.callback.device_observed 2]
      rfl (by decide)⟩

/-! ### Starting and stopping the manager -/

/-- The loop of `start` appends one started monitor per non-null matching dictionary, in the
order of the dictionaries, to the monitors it begins with. -/
theorem foldl_start_one (ds : List (Option CFDictionaryRef))
    (monitors : List iokit_service_monitor) :
    ds.foldl iokit_hid_manager.start_one monitors
      = monitors ++ (ds.filterMap id).map (fun d => iokit_service_monitor.mk d true) := by
  induction ds generalizing monitors with
  | nil => simp
  | cons d rest ih =>
    cases d with
    | none => simp [iokit_hid_manager.start_one, ih]
    | some x =>
      simp [iokit_hid_manager.start_one, ih, iokit_service_monitor.async_start]

/-- C9, counterexample. With one matching dictionary, two calls of `async_start()` leave two
service monitors where one call leaves one, whether the dispatcher runs between the calls or
after both: the second call is not a no-op. -/
theorem async_start_twice_differs :
    ((iokit_hid_manager.new [some 0]).async_start.dispatch.service_monitors_.length = 1)
    ∧ ((iokit_hid_manager.new [some 0]).async_start.async_start.dispatch.dispatch.service_monitors_.length
        = 2)
    ∧ ((iokit_hid_manager.new [some 0]).async_start.dispatch.async_start.dispatch.service_monitors_.length
        = 2)
    ∧ (iokit_hid_manager.new [some 0]).async_start.async_start.dispatch.dispatch
        ≠ (iokit_hid_manager.new [some 0]).async_start.dispatch
    ∧ (iokit_hid_manager.new [some 0]).async_start.dispatch.async_start.dispatch
        ≠ (iokit_hid_manager.new [some 0]).async_start.dispatch := by
  decide

/-- C9, amended. `async_start()` only enqueues `start()`, and each run of `start()` appends one
started service monitor per non-null matching dictionary, in order, to `service_monitors_`,
leaving the dictionaries, the live-device table, the queue and the signals as they were. So
one `async_start()` on a new manager yields exactly one monitor per non-null dictionary, and
a second `async_start()` yields as many again. -/
theorem start_appends_monitors (m : iokit_hid_manager)
    (matching_dictionaries : List (Option CFDictionaryRef)) :
    (m.async_start.dispatcher_queue = m.dispatcher_queue ++ [task.start]
      ∧ m.async_start.service_monitors_ = m.service_monitors_
      ∧ m.async_start.devices_ = m.devices_
      ∧ m.async_start.signals = m.signals)
    ∧ (m.start.service_monitors_
          = m.service_monitors_
            ++ (m.matching_dictionaries_.filterMap id).map
                (fun d => iokit_service_monitor.mk d true)
      ∧ m.start.matching_dictionaries_ = m.matching_dictionaries_
      ∧ m.start.devices_ = m.devices_
      ∧ m.start.dispatcher_queue = m.dispatcher_queue
      ∧ m.start.emitted = m.emitted
      ∧ m.start.signals = m.signals)
    ∧ ((iokit_hid_manager.new matching_dictionaries).async_start.dispatch.service_monitors_
          = (matching_dictionaries.filterMap id).map (fun d => iokit_service_monitor.mk d true))
    ∧ ((iokit_hid_manager.new
          matching_dictionaries).async_start.async_start.dispatch.dispatch.service_monitors_
          = (matching_dictionaries.filterMap id).map (fun d => iokit_service_monitor.mk d true)
            ++ (matching_dictionaries.filterMap id).map
                (fun d => iokit_service_monitor.mk d true))
    ∧ ((iokit_hid_manager.new
          matching_dictionaries).async_start.async_start.dispatch.dispatch.signals = []) := by
  refine ⟨⟨rfl, rfl, rfl, ?_⟩, ⟨?_, rfl, rfl, rfl, rfl, rfl⟩, ?_, ?_, ?_⟩
  · simp [iokit_hid_manager.async_start, iokit_hid_manager.enqueue_to_dispatcher,
      iokit_hid_manager.signals, pending_append_start]
  · simp [iokit_hid_manager.start, foldl_start_one]
  · simp [iokit_hid_manager.new, iokit_hid_manager.async_start,
      iokit_hid_manager.enqueue_to_dispatcher, iokit_hid_manager.dispatch,
      iokit_hid_manager.start, foldl_start_one]
  · simp [iokit_hid_manager.new, iokit_hid_manager.async_start,
      iokit_hid_manager.enqueue_to_dispatcher, iokit_hid_manager.dispatch,
      iokit_hid_manager.start, foldl_start_one]
  · simp [iokit_hid_manager.new, iokit_hid_manager.async_start,
      iokit_hid_manager.enqueue_to_dispatcher, iokit_hid_manager.dispatch,
      iokit_hid_manager.start, iokit_hid_manager.signals, iokit_hid_manager.pending]

/-- C10. For every state of the manager, with any number of devices in the live-device table,
`stop()` leaves `service_monitors_` and `devices_` empty and produces no signal: nothing is
emitted and nothing is enqueued, so the `device_terminated` signals of every id, the ids
still in the table included, are as before. -/
theorem stop_silent (m : iokit_hid_manager) :
    m.stop.service_monitors_ = []
    ∧ m.stop.devices_ = []
    ∧ (∀ id, m.stop.devices_.find id = none)
    ∧ m.stop.dispatcher_queue = m.dispatcher_queue
    ∧ m.stop.emitted = m.emitted
    ∧ m.stop.signals = m.signals
    ∧ (∀ id, count_device_terminated id m.stop.signals = count_device_terminated id m.signals
        ∧ count_device_matched id m.stop.signals = count_device_matched id m.signals) := by
  refine ⟨rfl, rfl, fun _ => rfl, rfl, rfl, rfl, fun _ => ⟨rfl, rfl⟩⟩

/-- C10, instance: a started manager with two live devices and two pending signals is
stopped; both tables are empty afterwards and the signals are the two from before. -/
theorem stop_silent_witness :
    ((iokit_hid_manager.new [some 0]).run
        [notification.async_start, notification.dispatch,
          notification.service_matched 1 (some 7),
          notification.service_matched 2 (some 8)]).stop.service_monitors_ = []
    ∧ ((iokit_hid_manager.new [some 0]).run
        [notification.async_start, notification.dispatch,
          notification.service_matched 1 (some 7),
          notification.service_matched 2 (some 8)]).stop.devices_ = []
    ∧ ((iokit_hid_manager.new [some 0]).run
        [notification.async_start, notification.dispatch,
          notification.service_matched 1 (some 7),
          notification.service_matched 2 (some 8)]).stop.signals
      = [signal.device_matched 1 7, signal.device_matched 2 8] :=
  ⟨(stop_silent _).1, (stop_silent _).2.1, (stop_silent _).2.2.2.2.2.1.trans (by decide)⟩

/-! ### The device wrapper table and the observer table of the facade -/

/-- The keys of a table after `m[k] = v`: the key `k` and the keys from before. -/
theorem mem_keys_assign {V : Type} (m : unordered_map V) (k k' : iokit_registry_entry_id)
    (v : V) : k' ∈ (m.assign k v).map Prod.fst ↔ k' = k ∨ k' ∈ m.map Prod.fst := by
  induction m with
  | nil => simp [unordered_map.assign]
  | cons e rest ih =>
    obtain ⟨k0, v0⟩ := e
    by_cases h : k0 = k
    · subst h
      simp [unordered_map.assign]
    · simp only [unordered_map.assign, h, if_false, List.map_cons, List.mem_cons, ih]
      tauto

/-- The keys of a table after `m.erase(k)` are keys from before. -/
theorem mem_keys_erase {V : Type} (m : unordered_map V) (k k' : iokit_registry_entry_id) :
    k' ∈ (m.erase k).map Prod.fst → k' ∈ m.map Prod.fst := by
  induction m with
  | nil => simp [unordered_map.erase]
  | cons e rest ih =>
    obtain ⟨k0, v0⟩ := e
    by_cases h : k0 = k
    · simp only [unordered_map.erase, h, if_true, List.map_cons, List.mem_cons]
      intro hk
      exact Or.inr (ih hk)
    · simp only [unordered_map.erase, h, if_false, List.map_cons, List.mem_cons]
      rintro (hk | hk)
      · exact Or.inl hk
      · exact Or.inr (ih hk)

/-- A table without repeated keys has none after `m[k] = v`. -/
theorem nodup_keys_assign {V : Type} (m : unordered_map V) (k : iokit_registry_entry_id) (v : V)
    (hm : (m.map Prod.fst).Nodup) : ((m.assign k v).map Prod.fst).Nodup := by
  induction m with
  | nil => simp [unordered_map.assign]
  | cons e rest ih =>
    obtain ⟨k0, v0⟩ := e
    have hm2 := List.nodup_cons.mp hm
    by_cases h : k0 = k
    · subst h
      simpa [unordered_map.assign] using hm
    · simp only [unordered_map.assign, h, if_false, List.map_cons]
      refine List.nodup_cons.mpr ⟨?_, ih hm2.2⟩
      intro hk
      rcases (mem_keys_assign rest k k0 v).mp hk with e | e
      · exact h e
      · exact hm2.1 e

/-- A table without repeated keys has none after `m.erase(k)`. -/
theorem nodup_keys_erase {V : Type} (m : unordered_map V) (k : iokit_registry_entry_id)
    (hm : (m.map Prod.fst).Nodup) : ((m.erase k).map Prod.fst).Nodup := by
  induction m with
  | nil => simp [unordered_map.erase]
  | cons e rest ih =>
    obtain ⟨k0, v0⟩ := e
    have hm2 := List.nodup_cons.mp hm
    by_cases h : k0 = k
    · simp only [unordered_map.erase, h, if_true]
      exact ih hm2.2
    · simp only [unordered_map.erase, h, if_false, List.map_cons]
      exact List.nodup_cons.mpr ⟨fun hk => hm2.1 (mem_keys_erase rest k k0 hk), ih hm2.2⟩

/-- In a table without repeated keys, after `m[k] = v` there is exactly one entry with the
key `k`, and it holds `v`. -/
theorem filter_assign_self {V : Type} (m : unordered_map V) (k : iokit_registry_entry_id) (v : V)
    (hm : (m.map Prod.fst).Nodup) :
    (m.assign k v).filter (fun e => decide (e.1 = k)) = [(k, v)] := by
  induction m with
  | nil => simp [unordered_map.assign]
  | cons e rest ih =>
    obtain ⟨k0, v0⟩ := e
    have hm2 := List.nodup_cons.mp hm
    by_cases h : k0 = k
    · subst h
      have hrest : rest.filter (fun e => decide (e.1 = k0)) = [] := by
        rw [List.filter_eq_nil_iff]
        intro a ha hk
        apply hm2.1
        have hk2 : a.1 = k0 := of_decide_eq_true hk
        exact List.mem_map.mpr ⟨a, ha, hk2⟩
      simp [unordered_map.assign, hrest]
    · simp only [unordered_map.assign, h, if_false]
      rw [List.filter_cons_of_neg (by simpa using h)]
      exact ih hm2.2

/-- Whether `hids_` has an entry for an id after one handler has run. -/
theorem present_hids_fire (id : iokit_registry_entry_id) (o : libkrbn_hid_value_observer_class)
    (c : callback) :
    (o.fire c).hids_.find id ≠ none
      ↔ (∃ d, c = callback.device_matched id d)
        ∨ (o.hids_.find id ≠ none ∧ c ≠ callback.device_terminated id) := by
  cases c with
  | device_matched i d =>
    by_cases h : i = id
    · subst h
      simp [libkrbn_hid_value_observer_class.fire,
        libkrbn_hid_value_observer_class.device_matched, find_assign_self]
    · have h2 : id ≠ i := fun e => h e.symm
      simp [libkrbn_hid_value_observer_class.fire,
        libkrbn_hid_value_observer_class.device_matched, find_assign_ne _ _ _ _ h2, h]
  | device_terminated i =>
    by_cases h : i = id
    · subst h
      simp [libkrbn_hid_value_observer_class.fire,
        libkrbn_hid_value_observer_class.device_terminated, find_erase_self]
    · have h2 : id ≠ i := fun e => h e.symm
      simp [libkrbn_hid_value_observer_class.fire,
        libkrbn_hid_value_observer_class.device_terminated, find_erase_ne _ _ _ h2, h]
  | device_observed i =>
    simp [libkrbn_hid_value_observer_class.fire,
      libkrbn_hid_value_observer_class.device_observed]
  | device_unobserved i =>
    simp [libkrbn_hid_value_observer_class.fire,
      libkrbn_hid_value_observer_class.device_unobserved]
  | error_occurred message r =>
    simp [libkrbn_hid_value_observer_class.fire, libkrbn_hid_value_observer_class.error_occurred]
  | values_arrived q =>
    simp [libkrbn_hid_value_observer_class.fire]

/-- Whether `hid_observers_` has an entry for an id after one handler has run. -/
theorem present_observers_fire (id : iokit_registry_entry_id)
    (o : libkrbn_hid_value_observer_class) (c : callback) :
    (o.fire c).hid_observers_.find id ≠ none
      ↔ (∃ d, c = callback.device_matched id d)
        ∨ (o.hid_observers_.find id ≠ none ∧ c ≠ callback.device_terminated id) := by
  cases c with
  | device_matched i d =>
    by_cases h : i = id
    · subst h
      simp [libkrbn_hid_value_observer_class.fire,
        libkrbn_hid_value_observer_class.device_matched,
        human_interface_device.get_registry_entry_id, find_assign_self]
    · have h2 : id ≠ i := fun e => h e.symm
      simp [libkrbn_hid_value_observer_class.fire,
        libkrbn_hid_value_observer_class.device_matched,
        human_interface_device.get_registry_entry_id, find_assign_ne _ _ _ _ h2, h]
  | device_terminated i =>
    by_cases h : i = id
    · subst h
      simp [libkrbn_hid_value_observer_class.fire,
        libkrbn_hid_value_observer_class.device_terminated, find_erase_self]
    · have h2 : id ≠ i := fun e => h e.symm
      simp [libkrbn_hid_value_observer_class.fire,
        libkrbn_hid_value_observer_class.device_terminated, find_erase_ne _ _ _ h2, h]
  | device_observed i =>
    simp [libkrbn_hid_value_observer_class.fire,
      libkrbn_hid_value_observer_class.device_observed]
  | device_unobserved i =>
    simp [libkrbn_hid_value_observer_class.fire,
      libkrbn_hid_value_observer_class.device_unobserved]
  | error_occurred message r =>
    simp [libkrbn_hid_value_observer_class.fire, libkrbn_hid_value_observer_class.error_occurred]
  | values_arrived q =>
    simp [libkrbn_hid_value_observer_class.fire]

/-- No handler introduces a repeated key into `hids_` or `hid_observers_`. -/
theorem nodup_keys_fire (o : libkrbn_hid_value_observer_class) (c : callback)
    (h : (o.hids_.map Prod.fst).Nodup ∧ (o.hid_observers_.map Prod.fst).Nodup) :
    ((o.fire c).hids_.map Prod.fst).Nodup ∧ ((o.fire c).hid_observers_.map Prod.fst).Nodup := by
  cases c with
  | device_matched i d =>
    exact ⟨nodup_keys_assign _ _ _ h.1, nodup_keys_assign _ _ _ h.2⟩
  | device_terminated i =>
    exact ⟨nodup_keys_erase _ _ h.1, nodup_keys_erase _ _ h.2⟩
  | device_observed i => exact h
  | device_unobserved i => exact h
  | error_occurred message r => exact h
  | values_arrived q => exact h

/-- No sequence of handler runs introduces a repeated key into `hids_` or `hid_observers_`. -/
theorem nodup_keys_run (cs : List callback) :
    ∀ o : libkrbn_hid_value_observer_class,
      ((o.hids_.map Prod.fst).Nodup ∧ (o.hid_observers_.map Prod.fst).Nodup) →
      (((o.run cs).hids_.map Prod.fst).Nodup
        ∧ ((o.run cs).hid_observers_.map Prod.fst).Nodup) := by
  induction cs with
  | nil => intro o h; exact h
  | cons c rest ih =>
    intro o h
    exact ih (o.fire c) (nodup_keys_fire o c h)

/-- Splitting a list with one more element at the end around an occurrence of some `f d`
whose followers all satisfy `Q`. -/
theorem split_concat_exists {α β : Type} (f : β → α) (c : α) (init : List α) (Q : α → Prop) :
    (∃ pre post d, init ++ [c] = pre ++ f d :: post ∧ ∀ y ∈ post, Q y)
      ↔ (∃ d, c = f d)
        ∨ ((∃ pre post d, init = pre ++ f d :: post ∧ ∀ y ∈ post, Q y) ∧ Q c) := by
  constructor
  · rintro ⟨pre, post, d, h⟩
    rcases (split_concat (f d) c init Q).mp ⟨pre, post, h⟩ with e | ⟨⟨pre2, post2, h2⟩, hc⟩
    · exact Or.inl ⟨d, e⟩
    · exact Or.inr ⟨⟨pre2, post2, d, h2⟩, hc⟩
  · rintro (⟨d, e⟩ | ⟨⟨pre, post, d, h⟩, hc⟩)
    · obtain ⟨pre2, post2, h2⟩ := (split_concat (f d) c init Q).mpr (Or.inl e)
      exact ⟨pre2, post2, d, h2⟩
    · obtain ⟨pre2, post2, h2⟩ := (split_concat (f d) c init Q).mpr (Or.inr ⟨⟨pre, post, h⟩, hc⟩)
      exact ⟨pre2, post2, d, h2⟩

/-- C11. A device wrapper reports the registry entry id it was constructed with. After any
sequence of handler runs on a newly constructed facade, `hids_` and `hid_observers_` have an
entry for the same ids, namely those for which a `device_matched` has run and no
`device_terminated` since, and neither table repeats a key. In such a state
`device_matched(id, d)` leaves exactly one wrapper and one observer under `id` (the new
pair), `device_terminated(id)` leaves no entry of `id` in either table and `id` out of
`observed_devices_`, and neither handler changes what the tables hold for any other id. -/
theorem tables_same_keys (callback refcon : Nat) (matching_dictionary : Option CFDictionaryRef)
    (cs : List Karabiner.callback) (id : iokit_registry_entry_id) :
    (∀ d i, (human_interface_device.mk d i).get_registry_entry_id = i)
    ∧ (((libkrbn_hid_value_observer_class.new callback refcon matching_dictionary).run
          cs).hids_.find id ≠ none
        ↔ ((libkrbn_hid_value_observer_class.new callback refcon matching_dictionary).run
          cs).hid_observers_.find id ≠ none)
    ∧ (((libkrbn_hid_value_observer_class.new callback refcon matching_dictionary).run
          cs).hids_.find id ≠ none
        ↔ ∃ pre post d, cs = pre ++ Karabiner.callback.device_matched id d :: post
            ∧ ∀ c ∈ post, c ≠ Karabiner.callback.device_terminated id)
    ∧ ((((libkrbn_hid_value_observer_class.new callback refcon matching_dictionary).run
          cs).hids_.map Prod.fst).Nodup
        ∧ (((libkrbn_hid_value_observer_class.new callback refcon matching_dictionary).run
          cs).hid_observers_.map Prod.fst).Nodup)
    ∧ (∀ d,
        ((((libkrbn_hid_value_observer_class.new callback refcon matching_dictionary).run
            cs).device_matched id d).hids_.filter (fun e => decide (e.1 = id))
          = [(id, human_interface_device.mk d id)])
        ∧ ((((libkrbn_hid_value_observer_class.new callback refcon matching_dictionary).run
            cs).device_matched id d).hid_observers_.filter (fun e => decide (e.1 = id))
          = [(id, hid_observer.mk (human_interface_device.mk d id) true)])
        ∧ (((libkrbn_hid_value_observer_class.new callback refcon matching_dictionary).run
            cs).device_matched id d).hids_.find id = some (human_interface_device.mk d id)
        ∧ (((libkrbn_hid_value_observer_class.new callback refcon matching_dictionary).run
            cs).device_matched id d).hid_observers_.find id
          = some (hid_observer.mk (human_interface_device.mk d id) true))
    ∧ ((((libkrbn_hid_value_observer_class.new callback refcon matching_dictionary).run
          cs).device_terminated id).hids_.find id = none
        ∧ (((libkrbn_hid_value_observer_class.new callback refcon matching_dictionary).run
          cs).device_terminated id).hid_observers_.find id = none
        ∧ id ∉ (((libkrbn_hid_value_observer_class.new callback refcon matching_dictionary).run
          cs).device_terminated id).observed_devices_)
    ∧ (∀ k, k ≠ id →
        (∀ d,
          (((libkrbn_hid_value_observer_class.new callback refcon matching_dictionary).run
              cs).device_matched id d).hids_.find k
            = ((libkrbn_hid_value_observer_class.new callback refcon matching_dictionary).run
              cs).hids_.find k
          ∧ (((libkrbn_hid_value_observer_class.new callback refcon matching_dictionary).run
              cs).device_matched id d).hid_observers_.find k
            = ((libkrbn_hid_value_observer_class.new callback refcon matching_dictionary).run
              cs).hid_observers_.find k)
        ∧ (((libkrbn_hid_value_observer_class.new callback refcon matching_dictionary).run
            cs).device_terminated id).hids_.find k
          = ((libkrbn_hid_value_observer_class.new callback refcon matching_dictionary).run
            cs).hids_.find k
        ∧ (((libkrbn_hid_value_observer_class.new callback refcon matching_dictionary).run
            cs).device_terminated id).hid_observers_.find k
          = ((libkrbn_hid_value_observer_class.new callback refcon matching_dictionary).run
            cs).hid_observers_.find k
        ∧ (k ∈ (((libkrbn_hid_value_observer_class.new callback refcon matching_dictionary).run
            cs).device_terminated id).observed_devices_
          ↔ k ∈ ((libkrbn_hid_value_observer_class.new callback refcon matching_dictionary).run
            cs).observed_devices_)) := by
  have hids : ∀ l : List Karabiner.callback,
      (((libkrbn_hid_value_observer_class.new callback refcon matching_dictionary).run
          l).hids_.find id ≠ none
        ↔ ∃ pre post d, l = pre ++ Karabiner.callback.device_matched id d :: post
            ∧ ∀ c ∈ post, c ≠ Karabiner.callback.device_terminated id) := by
    intro l
    induction l using List.reverseRecOn with
    | nil =>
      simp [libkrbn_hid_value_observer_class.run, libkrbn_hid_value_observer_class.new,
        unordered_map.find]
    | append_singleton init c ih =>
      rw [run_concat, present_hids_fire, ih]
      exact (split_concat_exists (Karabiner.callback.device_matched id) c init
        (fun y => y ≠ Karabiner.callback.device_terminated id)).symm
  have observers : ∀ l : List Karabiner.callback,
      (((libkrbn_hid_value_observer_class.new callback refcon matching_dictionary).run
          l).hid_observers_.find id ≠ none
        ↔ ∃ pre post d, l = pre ++ Karabiner.callback.device_matched id d :: post
            ∧ ∀ c ∈ post, c ≠ Karabiner.callback.device_terminated id) := by
    intro l
    induction l using List.reverseRecOn with
    | nil =>
      simp [libkrbn_hid_value_observer_class.run, libkrbn_hid_value_observer_class.new,
        unordered_map.find]
    | append_singleton init c ih =>
      rw [run_concat, present_observers_fire, ih]
      exact (split_concat_exists (Karabiner.callback.device_matched id) c init
        (fun y => y ≠ Karabiner.callback.device_terminated id)).symm
  have nodup := nodup_keys_run cs
    (libkrbn_hid_value_observer_class.new callback refcon matching_dictionary)
    ⟨List.nodup_nil, List.nodup_nil⟩
  refine ⟨fun _ _ => rfl, (hids cs).trans (observers cs).symm, hids cs, nodup, ?_, ?_, ?_⟩
  · intro d
    refine ⟨filter_assign_self _ _ _ nodup.1, filter_assign_self _ _ _ nodup.2,
      find_assign_self _ _ _, find_assign_self _ _ _⟩
  · refine ⟨find_erase_self _ _, find_erase_self _ _, ?_⟩
    simp [libkrbn_hid_value_observer_class.device_terminated]
  · intro k hk
    refine ⟨fun d => ⟨find_assign_ne _ _ _ _ hk, find_assign_ne _ _ _ _ hk⟩,
      find_erase_ne _ _ _ hk, find_erase_ne _ _ _ hk, ?_⟩
    simp [libkrbn_hid_value_observer_class.device_terminated, Finset.mem_erase, hk]

/-- C11, instance: devices 1 and 2 are matched, device 1 is observed and terminated and then
device 2 is matched again; both tables then hold exactly the new pair of device 2. -/
theorem tables_same_keys_witness :
    (((libkrbn_hid_value_observer_class.new 11 22 (some 3)).run
        [Karabiner.callback.device_matched 1 7, Karabiner.callback.device_matched 2 8,
          Karabiner.callback.device_observed 1,
          Karabiner.callback.device_terminated 1]).hids_.find 2 ≠ none
      ∧ ((libkrbn_hid_value_observer_class.new 11 22 (some 3)).run
        [Karabiner.callback.device_matched 1 7, Karabiner.callback.device_matched 2 8,
          Karabiner.callback.device_observed 1,
          Karabiner.callback.device_terminated 1]).hid_observers_.find 2 ≠ none)
    ∧ (((libkrbn_hid_value_observer_class.new 11 22 (some 3)).run
        [Karabiner.callback.device_matched 1 7, Karabiner.callback.device_matched 2 8,
          Karabiner.callback.device_observed 1,
          Karabiner.callback.device_terminated 1]).device_matched 2 9).hids_
      = [(2, human_interface_device.mk 9 2)]
    ∧ (((libkrbn_hid_value_observer_class.new 11 22 (some 3)).run
        [Karabiner.callback.device_matched 1 7, Karabiner.callback.device_matched 2 8,
          Karabiner.callback.device_observed 1,
          Karabiner.callback.device_terminated 1]).device_matched 2 9).hid_observers_
      = [(2, hid_observer.mk (human_interface_device.mk 9 2) true)] :=
  ⟨⟨(tables_same_keys 11 22 (some 3) _ 2).2.2.1.mpr
        ⟨[Karabiner.callback.device_matched 1 7],
          [Karabiner.callback.device_observed 1, Karabiner.callback.device_terminated 1],
          8, rfl, by decide⟩,
      (tables_same_keys 11 22 (some 3) _ 2).2.1.mp
        ((tables_same_keys 11 22 (some 3) _ 2).2.2.1.mpr
          ⟨[Karabiner.callback.device_matched 1 7],
            [Karabiner.callback.device_observed 1, Karabiner.callback.device_terminated 1],
            8, rfl, by decide⟩)⟩,
    by decide, by decide⟩

end Karabiner
